import Mathlib

/-!
Verification of the RAID simulator core (raid-simulator/internal/raid and
internal/rsutil) against its specification.

The Go sources are embedded shallowly:

* bytes are `Nat` (hypotheses `b < 256` are carried where byte-level
  Galois-field identities are needed);
* a chunk (`[]byte`) is a `List Nat`; a member disk's chunk list
  (`[][]byte`) is a `List Chunk`; a Go `nil` shard is `Option Chunk`;
* Go `int` arguments stay `Int`; Go division/remainder on `int` truncate
  toward zero, which is `Int.tdiv` / `Int.tmod`.  After a function has
  checked an argument to be non-negative the embedding moves to `Nat`
  (where `/` and `%` agree with Go on non-negative operands);
* fallible functions return `Except Err α`; each `fmt.Errorf` site of the
  source is mapped to one `Err` constructor;
* unbounded `for` loops that advance by a computed byte count become
  structural recursion on a fuel equal to the number of bytes still to be
  handled, which suffices because every reachable iteration advances by at
  least one byte (the stripe size is checked positive before each loop);
  counted `for i := a; i < a+k; i++` loops become `loopFor` / `loopForE`.

The external `klauspost/reedsolomon` library used by the RAID6 controller
is not part of the repository; the two entry points the source uses
(`Encode`, `Reconstruct`) are modelled from the specification, §4.3, and
are marked `Modelled from the spec` on their definitions.
-/

namespace RaidSim

/-! ### Galois-field byte arithmetic, GF(2^8) with polynomial 0x11d

Modelled from the spec: §4.3 requires a systematic erasure code
(Reed-Solomon or equivalent).  The classic RAID6 P/Q code over
GF(2^8)/0x11d is used: addition is XOR, `gfDouble` multiplies by the
generator 2, and parity row `j` uses coefficients `2^(i*j)`. -/

/-- Multiplication by 2 in GF(2^8) modulo the polynomial 0x11d. -/
def gfDouble (x : Nat) : Nat :=
  if 128 ≤ x then (2 * x) ^^^ 0x11d else 2 * x

/-- Russian-peasant multiplication helper: 8 bit steps over `b`. -/
def gfMulAux : Nat → Nat → Nat → Nat → Nat
  | 0, _, _, acc => acc
  | fuel + 1, a, b, acc =>
      gfMulAux fuel (gfDouble a) (b / 2) (if b % 2 = 1 then acc ^^^ a else acc)

/-- Multiplication in GF(2^8) (for byte-sized inputs). -/
def gfMul (a b : Nat) : Nat := gfMulAux 8 b a 0

/-- Multiplication by the inverse of 2 (which is 142 in GF(2^8)/0x11d). -/
def gfInv2 (x : Nat) : Nat := gfMul 142 x

/-- Multiplication by the inverse of 3 (which is 244 in GF(2^8)/0x11d). -/
def gfInv3 (x : Nat) : Nat := gfMul 244 x

/-- Iterated doubling: multiplication by `2^k` in GF(2^8). -/
def gfPow2Mul : Nat → Nat → Nat
  | 0, b => b
  | k + 1, b => gfDouble (gfPow2Mul k b)

set_option maxRecDepth 10000 in
set_option maxHeartbeats 1000000 in
/-- Core byte identity: dividing `3·y = y ⊕ 2·y` by 3 gives back `y`. -/
theorem gfInv3_xor_double (y : Nat) (h : y < 256) :
    gfInv3 (y ^^^ gfDouble y) = y := by
  have key : ∀ z : Fin 256, gfInv3 (z.val ^^^ gfDouble z.val) = z.val := by decide
  exact key ⟨y, h⟩

set_option maxRecDepth 10000 in
set_option maxHeartbeats 1000000 in
/-- Core byte identity: dividing `2·y` by 2 gives back `y`. -/
theorem gfInv2_double (y : Nat) (h : y < 256) : gfInv2 (gfDouble y) = y := by
  have key : ∀ z : Fin 256, gfInv2 (gfDouble z.val) = z.val := by decide
  exact key ⟨y, h⟩

/-! ### Chunks, disks, errors and shared helpers -/

/-- A chunk: one fixed-size byte block (`[]byte` in the source). -/
abbrev Chunk := List Nat

/-- Simulate single Disk (source: `base.go`, `type Disk struct`). -/
structure Disk where
  id : Int
  data : List Chunk
  deriving DecidableEq

/-- One constructor per `fmt.Errorf` site of the embedded sources (the
spec's §7 taxonomy gives the kind names). -/
inductive Err where
  /-- constructor rejection: too few member disks for the level -/
  | constructionTooFewDisks
  /-- constructor rejection: stripe size not strictly positive -/
  | constructionBadStripeSize
  /-- write/read precondition: stripe size must be greater than 0 -/
  | stripeSizeNonPositive
  /-- write/read precondition: no (or too few) disks in the array -/
  | tooFewDisks
  /-- write offset must be non-negative -/
  | negativeWriteOffset
  /-- read start and length must be non-negative -/
  | negativeReadArgs
  /-- internal error: chunk is nil or malformed -/
  | malformedChunk
  /-- RAID0: data unrecoverable due to a missing chunk -/
  | chunkUnavailable
  /-- read start offset is beyond the total data stored -/
  | startBeyondData
  /-- RAID1: no healthy disk found for a chunk -/
  | noHealthyMirror
  /-- RAID10: both disks of a mirror pair lost the chunk -/
  | mirrorPairLost
  /-- RAID10 ClearDisk: no member carries the requested ID -/
  | diskNotFound
  /-- ClearDisk: disk index out of bounds -/
  | diskIndexOutOfBounds
  /-- RAID5 RMW: multiple disk failures during a partial write -/
  | multipleFailuresRMW
  /-- RAID5 read: multiple disk failures in a stripe (the spec's
  TooManyMissingShards kind for RAID5: over the parity budget of 1) -/
  | multipleDiskFailures
  /-- rsutil: too many missing shards for the parity count -/
  | tooManyMissingShards
  /-- RAID5/6: bytes per full stripe is zero -/
  | badShape
  /-- internal inconsistency after reconstruction -/
  | internalInconsistency
  /-- no data has been written to the array yet -/
  | noDataWritten
  /-- a Go runtime panic (out-of-range slice index) -/
  | runtimePanic
  /-- fuel exhaustion: marks a loop the source would never leave -/
  | outOfFuel
  deriving DecidableEq

/-- Zero-filled chunk, Go `make([]byte, s)`. -/
def zeroChunk (s : Nat) : Chunk := List.replicate s 0

/-- Byte-wise XOR of two chunks of equal length. -/
def chunkXor (a b : Chunk) : Chunk := List.zipWith (fun x y => x ^^^ y) a b

/-- Byte-wise doubling of a chunk. -/
def gfDoubleChunk (c : Chunk) : Chunk := c.map gfDouble

/-- Byte-wise division by 2. -/
def gfInv2Chunk (c : Chunk) : Chunk := c.map gfInv2

/-- Byte-wise division by 3. -/
def gfInv3Chunk (c : Chunk) : Chunk := c.map gfInv3

/-- Go `dst := make([]byte, s); copy(dst, src)`: the first `s` bytes of
`src`, zero-padded to length `s`. -/
def mkChunk (s : Nat) (src : List Nat) : Chunk :=
  src.take s ++ List.replicate (s - src.length) 0

/-- Go `copy(c[pos:pos+src.length], src)` at a call site whose bounds fit
inside `c`. -/
def storeBytes (c : Chunk) (pos : Nat) (src : List Nat) : Chunk :=
  c.take pos ++ src ++ c.drop (pos + src.length)

/-- Go `for tgt >= len(l) { l = append(l, make([]byte, s)) }`: extend a
chunk list with zero chunks until index `tgt` exists. -/
def padChunksTo (s : Nat) (tgt : Nat) (l : List Chunk) : List Chunk :=
  if tgt < l.length then l else l ++ List.replicate (tgt + 1 - l.length) (zeroChunk s)

/-- Counted loop `for i := i0; i < i0+k; i++ { s = f i s }`. -/
def loopFor (f : Nat → σ → σ) : Nat → Nat → σ → σ
  | _, 0, s => s
  | i, k + 1, s => loopFor f (i + 1) k (f i s)

/-- Counted loop whose body may return an error. -/
def loopForE (f : Nat → σ → Except Err σ) : Nat → Nat → σ → Except Err σ
  | _, 0, s => .ok s
  | i, k + 1, s =>
      match f i s with
      | .error e => .error e
      | .ok s2 => loopForE f (i + 1) k s2

/-- Update the chunk list of the disk at position `d`. -/
def setDiskData (disks : List Disk) (d : Nat) (l : List Chunk) : List Disk :=
  disks.set d { (disks.getD d ⟨0, []⟩) with data := l }

/-- Chunk list of the disk at position `d` (call sites are in bounds). -/
def diskDataAt (disks : List Disk) (d : Nat) : List Chunk :=
  (disks.getD d ⟨0, []⟩).data

/-! ### rsutil: the shared erasure-coding shard utility

`rsutil.EncodeStripeShards` and `rsutil.ReconstructStripeShards` (the
section of `internal/config/const.go` holding the rsutil package) are
embedded below.  The `encoder.Encode` / `encoder.Reconstruct` calls go to
the external reedsolomon library and are modelled from the spec. -/

/-- Modelled from the spec: parity row `j` of the systematic erasure code,
the byte-wise GF(2^8) sum over data chunks `i` with coefficient `2^(i*j)`
(row 0 is plain XOR parity P, row 1 is the classic RAID6 Q). -/
def rsParityRow (s : Nat) (j : Nat) (dataChunks : List Chunk) : Chunk :=
  (dataChunks.enum).foldl
    (fun acc p => chunkXor acc (p.2.map (gfPow2Mul (p.1 * j))))
    (zeroChunk s)

/-- Modelled from the spec: `encoder.Encode` of the reedsolomon library
(§4.3 `Encode`): fill the `numParityShards` parity slots from the
`numDataShards` data shards, leaving the data shards unchanged. -/
def rsLibEncode (s : Nat) (dataChunks : List Chunk) (numParityShards : Nat) :
    List Chunk :=
  (List.range numParityShards).map (fun j => rsParityRow s j dataChunks)

/-- Embeds `rsutil.EncodeStripeShards`: split `inputData` into
`numDataShards` zero-padded chunks of `stripeSize` bytes, then append the
`numParityShards` parity chunks computed by the (modelled) encoder. -/
def EncodeStripeShards (inputData : List Nat) (stripeSize numDataShards numParityShards : Nat) :
    List Chunk :=
  let dataChunks :=
    (List.range numDataShards).map (fun i => mkChunk stripeSize (inputData.drop (i * stripeSize)))
  dataChunks ++ rsLibEncode stripeSize dataChunks numParityShards

/-- Modelled from the spec: reconstruction for the 2-data/2-parity shape
(the only shape the RAID6 claims exercise): fill each absent shard of
`[d0, d1, P, Q]` from the present ones.  Shapes with three or more absent
shards are rejected by the caller before this runs. -/
def reconstruct4 (d0o d1o po qo : Option Chunk) : List (Option Chunk) :=
  let dd : Chunk × Chunk :=
    match d0o, d1o, po, qo with
    | some d0, some d1, _, _ => (d0, d1)
    | none, some d1, some p, _ => (chunkXor p d1, d1)
    | none, some d1, none, some q => (chunkXor q (gfDoubleChunk d1), d1)
    | some d0, none, some p, _ => (d0, chunkXor p d0)
    | some d0, none, none, some q => (d0, gfInv2Chunk (chunkXor q d0))
    | none, none, some p, some q =>
        (chunkXor p (gfInv3Chunk (chunkXor p q)), gfInv3Chunk (chunkXor p q))
    | _, _, _, _ => ([], [])
  [some dd.1, some dd.2,
   some (po.getD (chunkXor dd.1 dd.2)),
   some (qo.getD (chunkXor dd.1 (gfDoubleChunk dd.2)))]

/-- Modelled from the spec: `encoder.Reconstruct` of the reedsolomon
library (§4.3 `Reconstruct`): fill in the absent shards; implemented for
the 2-data/2-parity shard shape used by the claims, the identity
otherwise. -/
def rsLibReconstruct (numDataShards : Nat) :
    List (Option Chunk) → List (Option Chunk)
  | [d0o, d1o, po, qo] =>
      if numDataShards = 2 then reconstruct4 d0o d1o po qo else [d0o, d1o, po, qo]
  | l => l

/-- Embeds `rsutil.ReconstructStripeShards`: count the absent shards; zero
absent is a no-op, more than `numParityShards` absent is an error, and
otherwise the (modelled) library reconstruction fills them in.
`numDataShards` stands for the shard shape the Go encoder instance
carries. -/
def ReconstructStripeShards (shards : List (Option Chunk))
    (numDataShards numParityShards : Nat) : Except Err (List (Option Chunk)) :=
  let missing := shards.countP (fun sh => sh.isNone)
  if missing = 0 then .ok shards
  else if numParityShards < missing then .error .tooManyMissingShards
  else .ok (rsLibReconstruct numDataShards shards)

/-! ### RAID0 (raid0.go) -/

structure RAID0Controller where
  disks : List Disk
  stripeSz : Int
  deriving DecidableEq

/-- Embeds `NewRAID0Controller`: no validation is performed; `diskCount`
zero-length disks are created.  (A negative `diskCount` would make Go's
`make` panic; the claims only instantiate non-negative counts.) -/
def NewRAID0Controller (diskCount stripeSize : Int) : RAID0Controller :=
  { disks := (List.range diskCount.toNat).map (fun i => { id := i, data := [] }),
    stripeSz := stripeSize }

/-- Byte-advancing loop of `RAID0Controller.Write`; the fuel starts at the
number of bytes left, enough because each iteration consumes at least one
byte (`s ≥ 1` is guaranteed by the caller's stripe-size check). -/
def raid0WriteLoop (s n : Nat) :
    Nat → Nat → List Disk → List Nat → Except Err (List Disk)
  | _, _, disks, [] => .ok disks
  | 0, _, _, _ :: _ => .error .outOfFuel
  | fuel + 1, cur, disks, b :: bs =>
      let stripe := cur / s
      let d := stripe % n
      let c := stripe / n
      let disks1 := setDiskData disks d (padChunksTo s c (diskDataAt disks d))
      let off := cur % s
      let cnt := min (s - off) (b :: bs).length
      let target := (diskDataAt disks1 d).getD c []
      if target.length = s then
        raid0WriteLoop s n fuel (cur + cnt)
          (setDiskData disks1 d
            ((diskDataAt disks1 d).set c (storeBytes target off ((b :: bs).take cnt))))
          ((b :: bs).drop cnt)
      else .error .malformedChunk

/-- Embeds `RAID0Controller.Write`. -/
def RAID0Controller.Write (r : RAID0Controller) (data : List Nat) (offset : Int) :
    Except Err RAID0Controller :=
  if data.length = 0 then .ok r
  else if r.stripeSz ≤ 0 then .error .stripeSizeNonPositive
  else if r.disks.length = 0 then .error .tooFewDisks
  else if offset < 0 then .error .negativeWriteOffset
  else
    match raid0WriteLoop r.stripeSz.toNat r.disks.length data.length offset.toNat r.disks data with
    | .error e => .error e
    | .ok disks => .ok { r with disks := disks }

/-- Byte-advancing loop of `RAID0Controller.Read` over `[cur, e)`. -/
def raid0ReadLoop (s n : Nat) (disks : List Disk) :
    Nat → Nat → Nat → List Nat → Except Err (List Nat)
  | 0, cur, e, acc => if cur < e then .error .outOfFuel else .ok acc
  | fuel + 1, cur, e, acc =>
      if cur < e then
        let stripe := cur / s
        let d := stripe % n
        let c := stripe / n
        let chunk := (diskDataAt disks d).getD c []
        if n ≤ d ∨ (diskDataAt disks d).length ≤ c ∨ chunk.length = 0 then
          .error .chunkUnavailable
        else
          let off := cur % s
          let btr := min (s - off) (e - cur)
          let btr := if chunk.length < off + btr then chunk.length - off else btr
          raid0ReadLoop s n disks fuel (cur + btr) e (acc ++ (chunk.drop off).take btr)
      else .ok acc

/-- Maximum logical byte offset `RAID0Controller.Read` considers written:
the deepest chunk list times the member count times the stripe size. -/
def raid0MaxWritten (r : RAID0Controller) : Int :=
  (r.disks.foldl (fun acc dsk => max acc dsk.data.length) 0 : Nat) * r.disks.length * r.stripeSz

/-- Embeds `RAID0Controller.Read`. -/
def RAID0Controller.Read (r : RAID0Controller) (start length : Int) :
    Except Err (List Nat) :=
  if start < 0 ∨ length < 0 then .error .negativeReadArgs
  else if r.disks.length = 0 then .error .tooFewDisks
  else if r.stripeSz ≤ 0 then .error .stripeSizeNonPositive
  else
    let maxWritten : Int := raid0MaxWritten r
    if maxWritten = -1 ∨ maxWritten ≤ start then
      if maxWritten < start then .error .startBeyondData else .ok []
    else
      let endLogical := min (start + length) maxWritten
      let length2 := endLogical - start
      if length2 ≤ 0 then .ok []
      else
        raid0ReadLoop r.stripeSz.toNat r.disks.length r.disks
          length2.toNat start.toNat endLogical.toNat []

/-- Embeds `RAID0Controller.ClearDisk`. -/
def RAID0Controller.ClearDisk (r : RAID0Controller) (index : Int) :
    Except Err RAID0Controller :=
  if index < 0 ∨ (r.disks.length : Int) ≤ index then .error .diskIndexOutOfBounds
  else .ok { r with disks := setDiskData r.disks index.toNat [] }

/-! ### RAID1 (raid1.go) -/

structure RAID1Controller where
  disks : List Disk
  stripeSz : Int
  deriving DecidableEq

/-- Embeds `NewRAID1Controller`. -/
def NewRAID1Controller (diskCount stripeSz : Int) : Except Err RAID1Controller :=
  if diskCount < 2 then .error .constructionTooFewDisks
  else if stripeSz ≤ 0 then .error .constructionBadStripeSize
  else
    .ok { disks := (List.range diskCount.toNat).map (fun i => { id := i, data := [] }),
          stripeSz := stripeSz }

/-- Mirror step of `RAID1Controller.Write`: extend one disk to chunk `c`
and overlay `src` at `off` inside that chunk. -/
def raid1WriteDisk (s c off : Nat) (src : List Nat) (disks : List Disk) (d : Nat) :
    Except Err (List Disk) :=
  let disks1 := setDiskData disks d (padChunksTo s c (diskDataAt disks d))
  let target := (diskDataAt disks1 d).getD c []
  if target.length = s then
    .ok (setDiskData disks1 d ((diskDataAt disks1 d).set c (storeBytes target off src)))
  else .error .malformedChunk

/-- Byte-advancing loop of `RAID1Controller.Write`: every disk receives
the same chunk segment. -/
def raid1WriteLoop (s n : Nat) :
    Nat → Nat → List Disk → List Nat → Except Err (List Disk)
  | _, _, disks, [] => .ok disks
  | 0, _, _, _ :: _ => .error .outOfFuel
  | fuel + 1, cur, disks, b :: bs =>
      let c := cur / s
      let off := cur % s
      let cnt := min (s - off) (b :: bs).length
      match loopForE (fun d disks2 => raid1WriteDisk s c off ((b :: bs).take cnt) disks2 d)
          0 n disks with
      | .error e => .error e
      | .ok disks2 => raid1WriteLoop s n fuel (cur + cnt) disks2 ((b :: bs).drop cnt)

/-- Embeds `RAID1Controller.Write`. -/
def RAID1Controller.Write (r : RAID1Controller) (data : List Nat) (offset : Int) :
    Except Err RAID1Controller :=
  if r.disks.length < 2 then .error .tooFewDisks
  else if data.length = 0 then .ok r
  else if r.stripeSz ≤ 0 then .error .stripeSizeNonPositive
  else if offset < 0 then .error .negativeWriteOffset
  else
    match raid1WriteLoop r.stripeSz.toNat r.disks.length data.length offset.toNat r.disks data with
    | .error e => .error e
    | .ok disks => .ok { r with disks := disks }

/-- Byte-advancing loop of `RAID1Controller.Read`: each needed chunk is
taken from the first disk that still holds it. -/
def raid1ReadLoop (s : Nat) (disks : List Disk) :
    Nat → Nat → Nat → List Nat → Except Err (List Nat)
  | 0, cur, e, acc => if cur < e then .error .outOfFuel else .ok acc
  | fuel + 1, cur, e, acc =>
      if cur < e then
        let c := cur / s
        let off := cur % s
        match disks.find? (fun dsk =>
            decide (c < dsk.data.length) && decide (0 < (dsk.data.getD c []).length)) with
        | none => .error .noHealthyMirror
        | some dsk =>
            let chunk := dsk.data.getD c []
            let btr := min (s - off) (e - cur)
            let btr := if chunk.length < off + btr then chunk.length - off else btr
            raid1ReadLoop s disks fuel (cur + btr) e (acc ++ (chunk.drop off).take btr)
      else .ok acc

/-- Maximum logical byte offset `RAID1Controller.Read` considers written
across the mirrors. -/
def raid1MaxWritten (r : RAID1Controller) : Int :=
  r.disks.foldl
    (fun acc dsk => if 0 < dsk.data.length then max acc (dsk.data.length * r.stripeSz) else acc)
    (-1)

/-- Embeds `RAID1Controller.Read`. -/
def RAID1Controller.Read (r : RAID1Controller) (start length : Int) :
    Except Err (List Nat) :=
  if start < 0 ∨ length < 0 then .error .negativeReadArgs
  else if r.disks.length = 0 then .error .tooFewDisks
  else if r.stripeSz ≤ 0 then .error .stripeSizeNonPositive
  else
    let maxWritten : Int := raid1MaxWritten r
    if maxWritten = -1 ∨ maxWritten ≤ start then
      if maxWritten < start then .error .startBeyondData else .ok []
    else
      let endLogical := min (start + length) maxWritten
      let length2 := endLogical - start
      if length2 ≤ 0 then .ok []
      else raid1ReadLoop r.stripeSz.toNat r.disks length2.toNat start.toNat endLogical.toNat []

/-- Embeds `RAID1Controller.ClearDisk`. -/
def RAID1Controller.ClearDisk (r : RAID1Controller) (index : Int) :
    Except Err RAID1Controller :=
  if index < 0 ∨ (r.disks.length : Int) ≤ index then .error .diskIndexOutOfBounds
  else .ok { r with disks := setDiskData r.disks index.toNat [] }

/-! ### RAID10 (raid10.go) -/

structure RAID10Controller where
  mirrors : List (List Disk)
  stripeSz : Int
  deriving DecidableEq

/-- Embeds `NewRAID10Controller`: an even number of at least 4 disks,
grouped into consecutive mirror pairs. -/
def NewRAID10Controller (totalDisks stripeSz : Int) : Except Err RAID10Controller :=
  if totalDisks < 4 ∨ totalDisks.tmod 2 ≠ 0 then .error .constructionTooFewDisks
  else if stripeSz ≤ 0 then .error .constructionBadStripeSize
  else
    .ok { mirrors := (List.range (totalDisks.toNat / 2)).map
            (fun p => [{ id := 2 * p, data := [] }, { id := 2 * p + 1, data := [] }]),
          stripeSz := stripeSz }

/-- Byte-advancing loop of `RAID10Controller.Write`: both disks of the
target mirror pair are extended together (by the primary's length) and
receive the same chunk segment. -/
def raid10WriteLoop (s m : Nat) :
    Nat → Nat → List (List Disk) → List Nat → Except Err (List (List Disk))
  | _, _, mirrors, [] => .ok mirrors
  | 0, _, _, _ :: _ => .error .outOfFuel
  | fuel + 1, cur, mirrors, b :: bs =>
      let stripe := cur / s
      let mi := stripe % m
      let ci := stripe / m
      let pair := mirrors.getD mi []
      let p := pair.getD 0 { id := 0, data := [] }
      let bk := pair.getD 1 { id := 0, data := [] }
      let grow := if ci < p.data.length then 0 else ci + 1 - p.data.length
      let pd := p.data ++ List.replicate grow (zeroChunk s)
      let bd := bk.data ++ List.replicate grow (zeroChunk s)
      if bd.length ≤ ci then .error .runtimePanic
      else
        let off := cur % s
        let cnt := min (s - off) (b :: bs).length
        let tp := pd.getD ci []
        let tb := bd.getD ci []
        if tp.length = s ∧ tb.length = s then
          let src := (b :: bs).take cnt
          let pair2 := [{ p with data := pd.set ci (storeBytes tp off src) },
                        { bk with data := bd.set ci (storeBytes tb off src) }]
          raid10WriteLoop s m fuel (cur + cnt) (mirrors.set mi pair2) ((b :: bs).drop cnt)
        else .error .malformedChunk

/-- Embeds `RAID10Controller.Write`. -/
def RAID10Controller.Write (r : RAID10Controller) (data : List Nat) (offset : Int) :
    Except Err RAID10Controller :=
  if data.length = 0 then .ok r
  else if r.stripeSz ≤ 0 then .error .stripeSizeNonPositive
  else if r.mirrors.length = 0 then .error .tooFewDisks
  else if offset < 0 then .error .negativeWriteOffset
  else
    match raid10WriteLoop r.stripeSz.toNat r.mirrors.length data.length offset.toNat
        r.mirrors data with
    | .error e => .error e
    | .ok mirrors => .ok { r with mirrors := mirrors }

/-- Byte-advancing loop of `RAID10Controller.Read`: each needed chunk is
taken from the first healthy disk of the relevant mirror pair. -/
def raid10ReadLoop (s m : Nat) (mirrors : List (List Disk)) :
    Nat → Nat → Nat → List Nat → Except Err (List Nat)
  | 0, cur, e, acc => if cur < e then .error .outOfFuel else .ok acc
  | fuel + 1, cur, e, acc =>
      if cur < e then
        let stripe := cur / s
        let mi := stripe % m
        let ci := stripe / m
        match (mirrors.getD mi []).find? (fun dsk =>
            decide (ci < dsk.data.length) && decide (0 < (dsk.data.getD ci []).length)) with
        | none => .error .mirrorPairLost
        | some dsk =>
            let chunk := dsk.data.getD ci []
            let off := cur % s
            let btr := min (s - off) (e - cur)
            let btr := if chunk.length < off + btr then chunk.length - off else btr
            raid10ReadLoop s m mirrors fuel (cur + btr) e (acc ++ (chunk.drop off).take btr)
      else .ok acc

/-- Maximum logical byte offset `RAID10Controller.Read` considers
written, derived per mirror pair. -/
def raid10MaxWritten (r : RAID10Controller) : Int :=
  let maxStripeIdx : Int := r.mirrors.enum.foldl
    (fun acc pr =>
      let chunksInPair := pr.2.foldl (fun acc2 dsk => max acc2 dsk.data.length) 0
      if 0 < chunksInPair then
        max acc ((chunksInPair - 1) * r.mirrors.length + pr.1)
      else acc)
    (-1)
  if maxStripeIdx = -1 then -1 else (maxStripeIdx + 1) * r.stripeSz

/-- Embeds `RAID10Controller.Read`, including its per-pair computation of
the maximum written logical stripe index. -/
def RAID10Controller.Read (r : RAID10Controller) (start length : Int) :
    Except Err (List Nat) :=
  if start < 0 ∨ length < 0 then .error .negativeReadArgs
  else if r.mirrors.length = 0 then .error .tooFewDisks
  else if r.stripeSz ≤ 0 then .error .stripeSizeNonPositive
  else
    let maxWritten : Int := raid10MaxWritten r
    if maxWritten = -1 ∨ maxWritten ≤ start then
      if maxWritten < start then .error .startBeyondData else .ok []
    else
      let endLogical := min (start + length) maxWritten
      let length2 := endLogical - start
      if length2 ≤ 0 then .ok []
      else
        raid10ReadLoop r.stripeSz.toNat r.mirrors.length r.mirrors
          length2.toNat start.toNat endLogical.toNat []

/-- Clear the first disk of a pair carrying `id`, if any. -/
def raid10ClearInPair (idx : Int) : List Disk → Option (List Disk)
  | [] => none
  | dsk :: rest =>
      if dsk.id = idx then some ({ dsk with data := [] } :: rest)
      else (raid10ClearInPair idx rest).map (fun rest2 => dsk :: rest2)

/-- Clear the first disk carrying `id` across all pairs, if any. -/
def raid10ClearIn (idx : Int) : List (List Disk) → Option (List (List Disk))
  | [] => none
  | pair :: ms =>
      match raid10ClearInPair idx pair with
      | some pair2 => some (pair2 :: ms)
      | none => (raid10ClearIn idx ms).map (fun ms2 => pair :: ms2)

/-- Embeds `RAID10Controller.ClearDisk`: the member is located by disk ID
across all pairs. -/
def RAID10Controller.ClearDisk (r : RAID10Controller) (index : Int) :
    Except Err RAID10Controller :=
  match raid10ClearIn index r.mirrors with
  | some mirrors => .ok { r with mirrors := mirrors }
  | none => .error .diskNotFound

/-! ### RAID5 (raid5.go) -/

/-- Go byte loop `p[i] ^= c[i]` guarded by `len(c) > i` (used by the RAID5
parity computations). -/
def xorInto (p c : Chunk) : Chunk :=
  p.enum.map (fun q => if q.1 < c.length then q.2 ^^^ c.getD q.1 0 else q.2)

/-- Go byte loop `p[i] ^= c[i]` without a length guard (call sites only
pass full-size chunks). -/
def xorIntoU (p c : Chunk) : Chunk :=
  p.enum.map (fun q => q.2 ^^^ c.getD q.1 0)

structure RAID5Controller where
  disks : List Disk
  stripeSz : Int
  deriving DecidableEq

/-- Maximum chunk index ever written across the members (the shared fold
of `RAID5Controller.Read` and `RAID6Controller.Read`), `-1` when nothing
was written. -/
def maxChunkIdx (disks : List Disk) : Int :=
  disks.foldl
    (fun acc dsk => if acc < (dsk.data.length : Int) - 1 then (dsk.data.length : Int) - 1 else acc)
    (-1)

/-- Embeds `NewRAID5Controller`: at least 3 disks and a positive stripe
size. -/
def NewRAID5Controller (diskCount stripeSz : Int) : Except Err RAID5Controller :=
  if diskCount < 3 then .error .constructionTooFewDisks
  else if stripeSz ≤ 0 then .error .constructionBadStripeSize
  else
    .ok { disks := (List.range diskCount.toNat).map (fun i => { id := i, data := [] }),
          stripeSz := stripeSz }

/-- Inner distribution loop of a RAID5 full-stripe write: walk the disks,
skip the parity member, append one zero-padded data chunk to each data
member and record it in `chunksFor` (breaking early if the stripe data
runs out, which cannot happen for a full stripe). -/
def raid5Distribute (s parityIdx : Nat) (stripeData : List Nat) :
    Nat → Nat → Nat → List Disk → List (Option Chunk) → List Disk × List (Option Chunk)
  | 0, _, _, disks, chunksFor => (disks, chunksFor)
  | left + 1, d, dc, disks, chunksFor =>
      if d = parityIdx then
        raid5Distribute s parityIdx stripeData left (d + 1) dc disks chunksFor
      else if stripeData.length ≤ dc * s then (disks, chunksFor)
      else
        let chunk := mkChunk s (stripeData.drop (dc * s))
        raid5Distribute s parityIdx stripeData left (d + 1) (dc + 1)
          (setDiskData disks d (diskDataAt disks d ++ [chunk]))
          (chunksFor.set d (some chunk))

/-- RAID5 parity of one stripe: the guarded XOR of the collected data
chunks, skipping the parity slot. -/
def raid5Parity (s n parityIdx : Nat) (chunksFor : List (Option Chunk)) : Chunk :=
  loopFor
    (fun d acc =>
      if d = parityIdx then acc
      else
        match chunksFor.getD d none with
        | some ch => xorInto acc ch
        | none => acc)
    0 n (zeroChunk s)

/-- One iteration of the RAID5 full-stripe write loop: distribute the data
chunks, compute the parity, append it to the rotating parity member, and
advance the data offset. -/
def raid5WriteStripe (s n bps : Nat) (data : List Nat) (i : Nat)
    (st : List Disk × Nat) : List Disk × Nat :=
  let stripeData := (data.drop st.2).take bps
  let parityIdx := i % n
  let res := raid5Distribute s parityIdx stripeData n 0 0 st.1 (List.replicate n none)
  let parityChunk := raid5Parity s n parityIdx res.2
  (setDiskData res.1 parityIdx (diskDataAt res.1 parityIdx ++ [parityChunk]), st.2 + bps)

/-- Read phase of the RAID5 RMW: copy each member's chunk at the target
stripe, remember a single missing member, and fail on a second one. -/
def raid5RMWRead (s psiN : Nat) (disks : List Disk) :
    Nat → Nat → List Chunk → Option Nat → Except Err (List Chunk × Option Nat)
  | 0, _, chunks, failed => .ok (chunks, failed)
  | left + 1, d, chunks, failed =>
      let ddata := diskDataAt disks d
      if psiN < ddata.length ∧ 0 < (ddata.getD psiN []).length then
        raid5RMWRead s psiN disks left (d + 1) (chunks ++ [mkChunk s (ddata.getD psiN [])]) failed
      else
        match failed with
        | none => raid5RMWRead s psiN disks left (d + 1) (chunks ++ [zeroChunk s]) (some d)
        | some _ => .error .multipleFailuresRMW

/-- Overlay phase of the RAID5 RMW: place the new partial bytes into the
data chunks of the stripe, tracking the logical data-chunk index and the
bytes already copied, with the source's early `break`. -/
def raid5Overlay (s parityIdx : Nat) (newPartial : List Nat) (cdoModBps : Nat) :
    Nat → Nat → Nat → Nat → List Chunk → List Chunk
  | 0, _, _, _, chunks => chunks
  | left + 1, d, dc, bc, chunks =>
      if d = parityIdx then raid5Overlay s parityIdx newPartial cdoModBps left (d + 1) dc bc chunks
      else if newPartial.length < dc * s then
        raid5Overlay s parityIdx newPartial cdoModBps left (d + 1) (dc + 1) bc chunks
      else
        let cs := if dc * s < cdoModBps then cdoModBps - dc * s else 0
        let btc := min (s - cs) (newPartial.length - bc)
        if btc = 0 then chunks
        else
          let ch := chunks.getD d []
          let ch := if ch.length < s then zeroChunk s else ch
          raid5Overlay s parityIdx newPartial cdoModBps left (d + 1) (dc + 1) (bc + btc)
            (chunks.set d (storeBytes ch cs ((newPartial.drop bc).take btc)))

/-- Write-back phase of the RAID5 RMW: store the new parity on the stripe's
parity member and the modified chunks on the data members, in place when
the index exists and by appending otherwise. -/
def raid5WriteBack (psiN parityIdx : Nat) (newParity : Chunk) (chunks : List Chunk) :
    Nat → Nat → List Disk → List Disk
  | 0, _, disks => disks
  | left + 1, d, disks =>
      let ddata := diskDataAt disks d
      let newChunk := if d = parityIdx then newParity else chunks.getD d []
      let ddata2 := if psiN < ddata.length then ddata.set psiN newChunk else ddata ++ [newChunk]
      raid5WriteBack psiN parityIdx newParity chunks left (d + 1) (setDiskData disks d ddata2)

/-- Embeds `RAID5Controller.handlePartialWrite` (the RAID5 RMW).  A
negative stripe index reaching the chunk-read loop indexes a Go slice with
a negative index, which panics. -/
def raid5HandlePartialWrite (n bps s : Nat) (disks : List Disk) (data : List Nat)
    (currentDataOffset remainingBytes : Nat) (partialStripeIdx : Int) :
    Except Err (List Disk) :=
  let disks1 :=
    if (((diskDataAt disks 0).length : Int) ≤ partialStripeIdx) then
      disks.map (fun dsk => { dsk with data := dsk.data ++ [zeroChunk s] })
    else disks
  if partialStripeIdx < 0 then .error .runtimePanic
  else
    let psiN := partialStripeIdx.toNat
    match raid5RMWRead s psiN disks1 n 0 [] none with
    | .error e => .error e
    | .ok (chunks, failed) =>
        let chunks :=
          match failed with
          | some f =>
              chunks.set f
                ((chunks.enum.foldl
                  (fun acc q => if q.1 = f then acc else xorIntoU acc q.2)
                  (zeroChunk s)))
          | none => chunks
        let parityIdx := psiN % n
        let newPartial := (data.drop currentDataOffset).take remainingBytes
        let chunks2 := raid5Overlay s parityIdx newPartial (currentDataOffset % bps)
          n 0 0 0 chunks
        let newParity :=
          loopFor (fun d acc => if d = parityIdx then acc else xorInto acc (chunks2.getD d []))
            0 n (zeroChunk s)
        .ok (raid5WriteBack psiN parityIdx newParity chunks2 n 0 disks1)

/-- Embeds `RAID5Controller.Write`: whole stripes are encoded and appended
with rotating parity; leftover bytes go through the RMW with the stripe
index the source derives from `offset` alone. -/
def RAID5Controller.Write (r : RAID5Controller) (data : List Nat) (offset : Int) :
    Except Err RAID5Controller :=
  if r.disks.length < 2 then .error .tooFewDisks
  else if r.stripeSz ≤ 0 then .error .stripeSizeNonPositive
  else
    let n := r.disks.length
    let s := r.stripeSz.toNat
    let bps := s * (n - 1)
    let fullStripes := data.length / bps
    let rem := data.length % bps
    let st := loopFor (raid5WriteStripe s n bps data) 0 fullStripes (r.disks, 0)
    if 0 < rem then
      match raid5HandlePartialWrite n bps s st.1 data st.2 rem (offset.tdiv bps) with
      | .error e => .error e
      | .ok disks => .ok { r with disks := disks }
    else .ok { r with disks := st.1 }

/-- Chunk-gathering loop of one RAID5 read stripe: record the missing
members and copy the available chunks. -/
def raid5Gather (s k : Nat) (disks : List Disk) :
    Nat → Nat → List Nat → List (Option Chunk) → List Nat × List (Option Chunk)
  | 0, _, failed, chunks => (failed, chunks)
  | left + 1, d, failed, chunks =>
      let ddata := diskDataAt disks d
      if ddata.length ≤ k ∨ (ddata.getD k []).length = 0 then
        raid5Gather s k disks left (d + 1) (failed ++ [d]) chunks
      else
        raid5Gather s k disks left (d + 1) failed (chunks.set d (some (mkChunk s (ddata.getD k []))))

/-- XOR reconstruction of a single missing RAID5 chunk from all available
chunks of the stripe, with the source's per-chunk size check. -/
def raid5Reconstruct (s : Nat) : List (Option Chunk) → Chunk → Except Err Chunk
  | [], acc => .ok acc
  | none :: rest, acc => raid5Reconstruct s rest acc
  | some ch :: rest, acc =>
      if ch.length = s then raid5Reconstruct s rest (xorIntoU acc ch)
      else .error .malformedChunk

/-- Assemble the logical data of one RAID5 stripe from the data chunks in
member order, skipping the parity member. -/
def raid5Assemble (s parityIdx : Nat) (chunks : List (Option Chunk)) :
    Nat → Nat → List Nat → Except Err (List Nat)
  | 0, _, acc => .ok acc
  | left + 1, d, acc =>
      if d = parityIdx then raid5Assemble s parityIdx chunks left (d + 1) acc
      else
        match chunks.getD d none with
        | none => .error .internalInconsistency
        | some ch =>
            if ch.length = s then raid5Assemble s parityIdx chunks left (d + 1) (acc ++ ch)
            else .error .internalInconsistency

/-- One stripe of `RAID5Controller.Read`: gather, reconstruct at most one
missing chunk, fail on more, assemble, and append the requested window. -/
def raid5ReadStripe (s n : Nat) (disks : List Disk) (startStripe endStripe sOff eOff : Nat)
    (k : Nat) (acc : List Nat) : Except Err (List Nat) :=
  let parityIdx := k % n
  let gathered := raid5Gather s k disks n 0 [] (List.replicate n none)
  let failed := gathered.1
  let chunks := gathered.2
  if 1 < failed.length then .error .multipleDiskFailures
  else
    match
      (if failed.length = 1 then
        match raid5Reconstruct s chunks (zeroChunk s) with
        | .error e => .error e
        | .ok recon => .ok (chunks.set (failed.getD 0 0) (some recon))
      else .ok chunks : Except Err (List (Option Chunk))) with
    | .error e => .error e
    | .ok chunks2 =>
        match raid5Assemble s parityIdx chunks2 n 0 [] with
        | .error e => .error e
        | .ok logical =>
            let startCopy := if k = startStripe then sOff else 0
            let endCopy := if k = endStripe then eOff + 1 else logical.length
            let endCopy := min endCopy logical.length
            if startCopy < endCopy then
              .ok (acc ++ (logical.drop startCopy).take (endCopy - startCopy))
            else .ok acc

/-- Embeds `RAID5Controller.Read`. -/
def RAID5Controller.Read (r : RAID5Controller) (start length : Int) :
    Except Err (List Nat) :=
  if start < 0 ∨ length < 0 then .error .negativeReadArgs
  else if r.disks.length < 3 then .error .tooFewDisks
  else if r.stripeSz ≤ 0 then .error .stripeSizeNonPositive
  else
    let n := r.disks.length
    let s := r.stripeSz.toNat
    let bps := s * (n - 1)
    if bps = 0 then .error .badShape
    else
      let maxIdx : Int := maxChunkIdx r.disks
      if maxIdx = -1 then .error .noDataWritten
      else
        let totalData : Int := (maxIdx + 1) * bps
        if totalData ≤ start then .error .startBeyondData
        else
          let length2 := min length (totalData - start)
          if length2 ≤ 0 then .ok []
          else
            let sN := start.toNat
            let lN := length2.toNat
            let startStripe := sN / bps
            let endStripe := (sN + lN - 1) / bps
            let sOff := sN % bps
            let eOff := (sN + lN - 1) % bps
            match loopForE (raid5ReadStripe s n r.disks startStripe endStripe sOff eOff)
                startStripe (endStripe - startStripe + 1) [] with
            | .error e => .error e
            | .ok result => .ok (result.take lN)

/-- Embeds `RAID5Controller.ClearDisk`. -/
def RAID5Controller.ClearDisk (r : RAID5Controller) (index : Int) :
    Except Err RAID5Controller :=
  if index < 0 ∨ (r.disks.length : Int) ≤ index then .error .diskIndexOutOfBounds
  else .ok { r with disks := setDiskData r.disks index.toNat [] }

/-! ### RAID6 (raid6.go) -/

structure RAID6Controller where
  disks : List Disk
  stripeSz : Int
  /-- shard shape of the reedsolomon encoder fixed at construction -/
  dataShards : Nat
  parityShards : Nat
  deriving DecidableEq

/-- Embeds `NewRAID6Controller`: at least 4 disks, positive stripe size,
and an encoder of shape `(diskCount - 2, 2)`. -/
def NewRAID6Controller (diskCount stripeSz : Int) : Except Err RAID6Controller :=
  if diskCount < 4 then .error .constructionTooFewDisks
  else if stripeSz ≤ 0 then .error .constructionBadStripeSize
  else
    .ok { disks := (List.range diskCount.toNat).map (fun i => { id := i, data := [] }),
          stripeSz := stripeSz,
          dataShards := diskCount.toNat - 2,
          parityShards := 2 }

/-- Distribution loop of a RAID6 full-stripe write: extend each member's
chunk list up to the absolute stripe index and store its shard there (P on
the second-to-last member, Q on the last, data shards in member order).  A
negative index would panic in Go. -/
def raid6Place (s n nd : Nat) (idx : Int) (encoded : List Chunk) :
    Nat → Nat → Nat → List Disk → Except Err (List Disk)
  | 0, _, _, disks => .ok disks
  | left + 1, d, dc, disks =>
      let ddata := padChunksTo s idx.toNat (diskDataAt disks d)
      let ddata := if idx < (diskDataAt disks d).length then diskDataAt disks d else ddata
      if idx < 0 then .error .runtimePanic
      else
        let shard :=
          if d = n - 2 then encoded.getD nd []
          else if d = n - 1 then encoded.getD (nd + 1) []
          else encoded.getD dc []
        let dc2 := if d = n - 2 ∨ d = n - 1 then dc else dc + 1
        raid6Place s n nd idx encoded left (d + 1) dc2
          (setDiskData disks d (ddata.set idx.toNat shard))

/-- One iteration of the RAID6 full-stripe write loop at absolute stripe
index `offset/bps + i`. -/
def raid6WriteStripe (s n nd np bps : Nat) (offset : Int) (data : List Nat) (i : Nat)
    (st : Except Err (List Disk × Nat)) : Except Err (List Disk × Nat) :=
  match st with
  | .error e => .error e
  | .ok (disks, cur) =>
      let idx := offset.tdiv bps + i
      let stripeData := (data.drop cur).take bps
      let encoded := EncodeStripeShards stripeData s nd np
      match raid6Place s n nd idx encoded n 0 0 disks with
      | .error e => .error e
      | .ok disks2 => .ok (disks2, cur + bps)

/-- Chunk-read loop of the RAID6 RMW and Read: copy each member's chunk at
stripe `k` or mark it missing. -/
def raid6Gather (s k : Nat) (disks : List Disk) :
    Nat → Nat → List (Option Chunk) → List (Option Chunk)
  | 0, _, shards => shards
  | left + 1, d, shards =>
      let ddata := diskDataAt disks d
      let shard :=
        if k < ddata.length ∧ 0 < (ddata.getD k []).length then
          some (mkChunk s (ddata.getD k []))
        else none
      raid6Gather s k disks left (d + 1) (shards ++ [shard])

/-- Route physically ordered shards into the reedsolomon logical order:
data shards from members `0..nd-1`, then P from member `n-2` and Q from
member `n-1`. -/
def raid6ToLogical (n nd : Nat) (physical : List (Option Chunk)) : List (Option Chunk) :=
  (List.range nd).map (fun i => physical.getD i none)
    ++ [physical.getD (n - 2) none, physical.getD (n - 1) none]

/-- Write-back loop of the RAID6 RMW: store the re-encoded shards on their
members at the target stripe index. -/
def raid6StoreBack (n nd : Nat) (tgt : Nat) (newShards : List Chunk) :
    Nat → Nat → Nat → List Disk → List Disk
  | 0, _, _, disks => disks
  | left + 1, d, dc, disks =>
      let shard :=
        if d = n - 2 then newShards.getD nd []
        else if d = n - 1 then newShards.getD (nd + 1) []
        else newShards.getD dc []
      let dc2 := if d = n - 2 ∨ d = n - 1 then dc else dc + 1
      raid6StoreBack n nd tgt newShards left (d + 1) dc2
        (setDiskData disks d ((diskDataAt disks d).set tgt shard))

/-- Embeds `RAID6Controller.handlePartialWrite` (the RAID6 RMW).  A
negative target index panics at the chunk-read loop; an overlay window
that leaves the stripe buffer panics at the Go `copy` slice bounds. -/
def raid6HandlePartialWrite (n nd np bps s : Nat) (disks : List Disk) (data : List Nat)
    (partialDataOffsetInInput remainingBytes : Nat) (targetStripeIndex : Int)
    (originalWriteOffset : Int) : Except Err (List Disk) :=
  let disks1 := disks.map
    (fun dsk => { dsk with data := padChunksTo s targetStripeIndex.toNat dsk.data })
  let disks1 := if targetStripeIndex < 0 then disks else disks1
  if targetStripeIndex < 0 then .error .runtimePanic
  else
    let tgt := targetStripeIndex.toNat
    let physical := raid6Gather s tgt disks1 n 0 []
    let rsShards := raid6ToLogical n nd physical
    match ReconstructStripeShards rsShards nd np with
    | .error e => .error e
    | .ok rsShards2 =>
        let buffer := (List.range nd).foldl
          (fun acc i => storeBytes acc (i * s) ((rsShards2.getD i none).getD []))
          (zeroChunk bps)
        let so : Int := (originalWriteOffset + partialDataOffsetInInput).tmod bps
        if so < 0 ∨ (bps : Int) < so + remainingBytes then .error .runtimePanic
        else
          let buffer2 := storeBytes buffer so.toNat
            ((data.drop partialDataOffsetInInput).take remainingBytes)
          let newShards := EncodeStripeShards buffer2 s nd np
          .ok (raid6StoreBack n nd tgt newShards n 0 0 disks1)

/-- Embeds `RAID6Controller.Write`.  A zero `bytesPerFullStripe` would be
an integer division by zero in Go, which panics. -/
def RAID6Controller.Write (r : RAID6Controller) (data : List Nat) (offset : Int) :
    Except Err RAID6Controller :=
  if r.disks.length < 4 then .error .tooFewDisks
  else if r.stripeSz ≤ 0 then .error .stripeSizeNonPositive
  else
    let n := r.disks.length
    let nd := r.dataShards
    let np := r.parityShards
    let s := r.stripeSz.toNat
    let bps := s * nd
    if bps = 0 then .error .runtimePanic
    else
      let fullStripes := data.length / bps
      let rem := data.length % bps
      match loopFor (raid6WriteStripe s n nd np bps offset data) 0 fullStripes
          (.ok (r.disks, 0)) with
      | .error e => .error e
      | .ok (disks, cur) =>
          if 0 < rem then
            let tgt := (offset + (fullStripes * bps : Nat)).tdiv bps
            match raid6HandlePartialWrite n nd np bps s disks data cur rem tgt offset with
            | .error e => .error e
            | .ok disks2 => .ok { r with disks := disks2 }
          else .ok { r with disks := disks }

/-- Assemble the logical data of one RAID6 stripe from the reconstructed
logical data shards. -/
def raid6Assemble (s : Nat) (rsShards : List (Option Chunk)) :
    Nat → Nat → List Nat → Except Err (List Nat)
  | 0, _, acc => .ok acc
  | left + 1, i, acc =>
      match rsShards.getD i none with
      | none => .error .internalInconsistency
      | some ch =>
          if ch.length = s then raid6Assemble s rsShards left (i + 1) (acc ++ ch)
          else .error .internalInconsistency

/-- One stripe of `RAID6Controller.Read`: gather the physical shards,
route them into logical order, reconstruct, assemble, and append the
requested window. -/
def raid6ReadStripe (s n nd np : Nat) (disks : List Disk)
    (startStripe endStripe sOff eOff : Nat) (k : Nat) (acc : List Nat) :
    Except Err (List Nat) :=
  let physical := raid6Gather s k disks n 0 []
  let rsShards := raid6ToLogical n nd physical
  match ReconstructStripeShards rsShards nd np with
  | .error e => .error e
  | .ok rsShards2 =>
      match raid6Assemble s rsShards2 nd 0 [] with
      | .error e => .error e
      | .ok logical =>
          let startCopy := if k = startStripe then sOff else 0
          let endCopy := if k = endStripe then eOff + 1 else logical.length
          let endCopy := min endCopy logical.length
          if startCopy < endCopy then
            .ok (acc ++ (logical.drop startCopy).take (endCopy - startCopy))
          else .ok acc

/-- Embeds `RAID6Controller.Read`. -/
def RAID6Controller.Read (r : RAID6Controller) (start length : Int) :
    Except Err (List Nat) :=
  if start < 0 ∨ length < 0 then .error .negativeReadArgs
  else if r.disks.length < 4 then .error .tooFewDisks
  else if r.stripeSz ≤ 0 then .error .stripeSizeNonPositive
  else
    let n := r.disks.length
    let nd := r.dataShards
    let np := r.parityShards
    let s := r.stripeSz.toNat
    let bps := s * nd
    if bps = 0 then .error .badShape
    else
      let maxIdx : Int := maxChunkIdx r.disks
      if maxIdx = -1 then .error .noDataWritten
      else
        let totalData : Int := (maxIdx + 1) * bps
        if totalData ≤ start then .error .startBeyondData
        else
          let length2 := min length (totalData - start)
          if length2 ≤ 0 then .ok []
          else
            let sN := start.toNat
            let lN := length2.toNat
            let startStripe := sN / bps
            let endStripe := (sN + lN - 1) / bps
            let sOff := sN % bps
            let eOff := (sN + lN - 1) % bps
            match loopForE (raid6ReadStripe s n nd np r.disks startStripe endStripe sOff eOff)
                startStripe (endStripe - startStripe + 1) [] with
            | .error e => .error e
            | .ok result => .ok (result.take lN)

/-- Embeds `RAID6Controller.ClearDisk`. -/
def RAID6Controller.ClearDisk (r : RAID6Controller) (index : Int) :
    Except Err RAID6Controller :=
  if index < 0 ∨ (r.disks.length : Int) ≤ index then .error .diskIndexOutOfBounds
  else .ok { r with disks := setDiskData r.disks index.toNat [] }

/-! ### The RAID6 45-byte scenario of claim C4: named stripe columns

Abbreviations for the chunk each member holds at each stripe index after
`Write` of a 45-byte input on the 4-member, stripe-size-4 controller
(five full stripes, then the RMW tail stripe), the post-clear disk
states, and the per-stripe windows the read returns. -/

def c6d (data : List Nat) (t : Nat) : Chunk := mkChunk 4 ((data.drop (8 * t)).take 8)
def c6e (data : List Nat) (t : Nat) : Chunk := mkChunk 4 (((data.drop (8 * t)).take 8).drop 4)
def c6p (data : List Nat) (t : Nat) : Chunk := chunkXor (c6d data t) (c6e data t)
def c6q (data : List Nat) (t : Nat) : Chunk := chunkXor (c6d data t) (gfDoubleChunk (c6e data t))

def raid6DisksAfter (data : List Nat) (k : Nat) : List Disk :=
  [⟨0, (List.range k).map (c6d data)⟩, ⟨1, (List.range k).map (c6e data)⟩,
   ⟨2, (List.range k).map (c6p data)⟩, ⟨3, (List.range k).map (c6q data)⟩]

def buf45 (data : List Nat) : List Nat := storeBytes (zeroChunk 8) 0 ((data.drop 40).take 5)

def raid6Disks45 (data : List Nat) : List Disk :=
  [⟨0, (List.range 5).map (c6d data) ++ [mkChunk 4 (buf45 data)]⟩,
   ⟨1, (List.range 5).map (c6e data) ++ [mkChunk 4 ((buf45 data).drop 4)]⟩,
   ⟨2, (List.range 5).map (c6p data) ++
        [chunkXor (mkChunk 4 (buf45 data)) (mkChunk 4 ((buf45 data).drop 4))]⟩,
   ⟨3, (List.range 5).map (c6q data) ++
        [chunkXor (mkChunk 4 (buf45 data)) (gfDoubleChunk (mkChunk 4 ((buf45 data).drop 4)))]⟩]

def col0 (data : List Nat) (k : Nat) : Chunk :=
  if k = 5 then mkChunk 4 (buf45 data) else mkChunk 4 ((data.drop (8 * k)).take 8)

def col1 (data : List Nat) (k : Nat) : Chunk :=
  if k = 5 then mkChunk 4 ((buf45 data).drop 4)
  else mkChunk 4 (((data.drop (8 * k)).take 8).drop 4)

def colP (data : List Nat) (k : Nat) : Chunk := chunkXor (col0 data k) (col1 data k)
def colQ (data : List Nat) (k : Nat) : Chunk :=
  chunkXor (col0 data k) (gfDoubleChunk (col1 data k))

def cleared45 (data : List Nat) (b0 b1 b2 b3 : Bool) : List Disk :=
  [⟨0, if b0 then (List.range 6).map (col0 data) else []⟩,
   ⟨1, if b1 then (List.range 6).map (col1 data) else []⟩,
   ⟨2, if b2 then (List.range 6).map (colP data) else []⟩,
   ⟨3, if b3 then (List.range 6).map (colQ data) else []⟩]

def w45 (data : List Nat) (k : Nat) : List Nat :=
  (col0 data k ++ col1 data k).take (if k = 5 then 5 else 8)

/-- Parity chunk the RAID5(3,1) full-stripe write computes for `[a, b]`. -/
def par5 (a b : Nat) : Chunk :=
  raid5Parity 1 3 0 ((raid5Distribute 1 0 [a, b] 3 0 0
    [⟨0, []⟩, ⟨1, []⟩, ⟨2, []⟩] (List.replicate 3 none)).2)

/-! ### Chunk-level lemma kit -/

theorem zeroChunk_length (s : Nat) : (zeroChunk s).length = s := List.length_replicate s 0

theorem mkChunk_length (s : Nat) (src : List Nat) : (mkChunk s src).length = s := by
  simp only [mkChunk, List.length_append, List.length_take, List.length_replicate]
  omega

theorem mkChunk_eq_self {s : Nat} {c : Chunk} (h : c.length = s) : mkChunk s c = c := by
  simp [mkChunk, h, List.take_of_length_le (le_of_eq h)]

theorem mkChunk_mem {s : Nat} {src : List Nat} {b : Nat} (h : b ∈ mkChunk s src) :
    b ∈ src ∨ b = 0 := by
  rcases List.mem_append.mp h with h2 | h2
  · exact Or.inl (List.mem_of_mem_take h2)
  · exact Or.inr (List.eq_of_mem_replicate h2)

theorem chunkXor_length (a b : Chunk) : (chunkXor a b).length = min a.length b.length := by
  simp [chunkXor]

theorem gfDoubleChunk_length (c : Chunk) : (gfDoubleChunk c).length = c.length := by
  simp [gfDoubleChunk]

theorem chunkXor_zero_left {s : Nat} {c : Chunk} (h : c.length = s) :
    chunkXor (zeroChunk s) c = c := by
  subst h
  induction c with
  | nil => rfl
  | cons x xs ih =>
      simp only [chunkXor, zeroChunk, List.length_cons, List.replicate_succ, List.zipWith_cons_cons,
        Nat.zero_xor]
      exact congrArg (x :: ·) ih

theorem chunkXor_comm (a b : Chunk) : chunkXor a b = chunkXor b a := by
  unfold chunkXor
  induction a generalizing b with
  | nil => cases b <;> rfl
  | cons x xs ih =>
      cases b with
      | nil => rfl
      | cons y ys =>
          simp only [List.zipWith_cons_cons]
          rw [Nat.xor_comm]
          exact congrArg (_ :: ·) (ih ys)

theorem chunkXor_cancel_right (a b : Chunk) : chunkXor (chunkXor a b) b = a.take b.length := by
  unfold chunkXor
  induction a generalizing b with
  | nil => cases b <;> rfl
  | cons x xs ih =>
      cases b with
      | nil => rfl
      | cons y ys =>
          simp only [List.zipWith_cons_cons, List.take_cons]
          rw [Nat.xor_cancel_right]
          exact congrArg (_ :: ·) (ih ys)

theorem chunkXor_xor_xor (a b c : Chunk) (hab : a.length = b.length) (hac : a.length = c.length) :
    chunkXor (chunkXor a b) (chunkXor a c) = chunkXor b c := by
  unfold chunkXor
  induction a generalizing b c with
  | nil =>
      cases b with
      | nil => cases c <;> rfl
      | cons y ys => simp at hab
  | cons x xs ih =>
      cases b with
      | nil => simp at hab
      | cons y ys =>
          cases c with
          | nil => simp at hac
          | cons z zs =>
              simp only [List.zipWith_cons_cons]
              have hxy : x ^^^ y ^^^ (x ^^^ z) = y ^^^ z := by
                rw [Nat.xor_comm x y, Nat.xor_assoc, ← Nat.xor_assoc x x z, Nat.xor_self,
                  Nat.zero_xor]
              rw [hxy]
              exact congrArg (_ :: ·)
                (ih ys zs (by simpa using hab) (by simpa using hac))

theorem gfInv2Chunk_double (c : Chunk) (hb : ∀ b ∈ c, b < 256) :
    gfInv2Chunk (gfDoubleChunk c) = c := by
  induction c with
  | nil => rfl
  | cons x xs ih =>
      simp only [gfDoubleChunk, gfInv2Chunk, List.map_cons]
      rw [gfInv2_double x (hb x (List.mem_cons_self _ _))]
      have := ih (fun b hbm => hb b (List.mem_cons_of_mem _ hbm))
      simpa [gfDoubleChunk, gfInv2Chunk] using congrArg (x :: ·) this

theorem gfInv3Chunk_xor_double (c : Chunk) (hb : ∀ b ∈ c, b < 256) :
    gfInv3Chunk (chunkXor c (gfDoubleChunk c)) = c := by
  induction c with
  | nil => rfl
  | cons x xs ih =>
      simp only [gfDoubleChunk, chunkXor, gfInv3Chunk, List.map_cons, List.zipWith_cons_cons]
      rw [gfInv3_xor_double x (hb x (List.mem_cons_self _ _))]
      have := ih (fun b hbm => hb b (List.mem_cons_of_mem _ hbm))
      simpa [gfDoubleChunk, chunkXor, gfInv3Chunk] using congrArg (x :: ·) this

theorem set_append_singleton (l : List α) (z c : α) : (l ++ [z]).set l.length c = l ++ [c] := by
  induction l with
  | nil => rfl
  | cons x xs ih => simpa using congrArg (x :: ·) ih

theorem map_gfPow2Mul_zero (c : Chunk) : c.map (gfPow2Mul 0) = c := by
  induction c with
  | nil => rfl
  | cons x xs ih => simpa [gfPow2Mul] using congrArg (x :: ·) ih

theorem map_gfPow2Mul_one (c : Chunk) : c.map (gfPow2Mul 1) = gfDoubleChunk c := by
  induction c with
  | nil => rfl
  | cons x xs ih => simpa [gfPow2Mul, gfDoubleChunk] using congrArg (_ :: ·) ih

theorem chunkXor_cancel_left (a b : Chunk) : chunkXor (chunkXor a b) a = b.take a.length := by
  rw [chunkXor_comm a b, chunkXor_cancel_right]

/-! ### Behaviour of the modelled codec on the 2-data/2-parity shape -/

/-- `EncodeStripeShards` at the RAID6 shape used by the claims: the two
zero-padded data chunks followed by the P and Q parities. -/
theorem EncodeStripeShards_two (buf : List Nat) (s : Nat) :
    EncodeStripeShards buf s 2 2 =
      [mkChunk s buf, mkChunk s (buf.drop s),
       chunkXor (mkChunk s buf) (mkChunk s (buf.drop s)),
       chunkXor (mkChunk s buf) (gfDoubleChunk (mkChunk s (buf.drop s)))] := by
  have h0 : (mkChunk s buf).length = s := mkChunk_length _ _
  have h1 : (mkChunk s (buf.drop s)).length = s := mkChunk_length _ _
  simp only [EncodeStripeShards, rsLibEncode, rsParityRow, List.range_succ, List.range_zero,
    List.map_nil, List.map_cons, List.map_append, List.nil_append, List.enum,
    List.enumFrom, List.foldl_cons, List.foldl_nil, Nat.zero_mul, Nat.one_mul, Nat.mul_zero,
    Nat.mul_one, Nat.zero_add, map_gfPow2Mul_zero, map_gfPow2Mul_one, List.drop_zero,
    chunkXor_zero_left h0]
  simp

/-- Reconstruction with both data shards present only fills the parity
slots. -/
theorem reconstruct4_parity (c0 c1 : Chunk) (po qo : Option Chunk) :
    reconstruct4 (some c0) (some c1) po qo =
      [some c0, some c1, some (po.getD (chunkXor c0 c1)),
       some (qo.getD (chunkXor c0 (gfDoubleChunk c1)))] := rfl

/-- Reconstruction of both data shards from P and Q. -/
theorem reconstruct4_data_data (c0 c1 : Chunk) (hlen : c0.length = c1.length)
    (hb : ∀ b ∈ c1, b < 256) :
    reconstruct4 none none (some (chunkXor c0 c1)) (some (chunkXor c0 (gfDoubleChunk c1)))
      = [some c0, some c1, some (chunkXor c0 c1),
         some (chunkXor c0 (gfDoubleChunk c1))] := by
  have hd1 : gfInv3Chunk (chunkXor (chunkXor c0 c1) (chunkXor c0 (gfDoubleChunk c1))) = c1 := by
    rw [chunkXor_xor_xor c0 c1 (gfDoubleChunk c1) hlen
      (by rw [gfDoubleChunk_length]; exact hlen)]
    exact gfInv3Chunk_xor_double c1 hb
  have hd0 : chunkXor (chunkXor c0 c1) c1 = c0 := by
    rw [chunkXor_cancel_right, ← hlen, List.take_length]
  simp only [reconstruct4, hd1, hd0, Option.getD_some]

/-- Reconstruction of data shard 0 (and P) from data shard 1 and Q. -/
theorem reconstruct4_d0_p (c0 c1 : Chunk) (hlen : c0.length = c1.length) :
    reconstruct4 none (some c1) none (some (chunkXor c0 (gfDoubleChunk c1)))
      = [some c0, some c1, some (chunkXor c0 c1),
         some (chunkXor c0 (gfDoubleChunk c1))] := by
  have hd0 : chunkXor (chunkXor c0 (gfDoubleChunk c1)) (gfDoubleChunk c1) = c0 := by
    rw [chunkXor_cancel_right, gfDoubleChunk_length, ← hlen, List.take_length]
  simp only [reconstruct4, hd0, Option.getD_none, Option.getD_some]

/-- Reconstruction of data shard 0 (and Q) from data shard 1 and P. -/
theorem reconstruct4_d0_q (c0 c1 : Chunk) (hlen : c0.length = c1.length) :
    reconstruct4 none (some c1) (some (chunkXor c0 c1)) none
      = [some c0, some c1, some (chunkXor c0 c1),
         some (chunkXor c0 (gfDoubleChunk c1))] := by
  have hd0 : chunkXor (chunkXor c0 c1) c1 = c0 := by
    rw [chunkXor_cancel_right, ← hlen, List.take_length]
  simp only [reconstruct4, hd0, Option.getD_none, Option.getD_some]

/-- Reconstruction of data shard 1 (and P) from data shard 0 and Q. -/
theorem reconstruct4_d1_p (c0 c1 : Chunk) (hlen : c0.length = c1.length)
    (hb : ∀ b ∈ c1, b < 256) :
    reconstruct4 (some c0) none none (some (chunkXor c0 (gfDoubleChunk c1)))
      = [some c0, some c1, some (chunkXor c0 c1),
         some (chunkXor c0 (gfDoubleChunk c1))] := by
  have hd1 : gfInv2Chunk (chunkXor (chunkXor c0 (gfDoubleChunk c1)) c0) = c1 := by
    rw [chunkXor_cancel_left]
    have : (gfDoubleChunk c1).take c0.length = gfDoubleChunk c1 := by
      rw [hlen, ← gfDoubleChunk_length c1, List.take_length]
    rw [this]
    exact gfInv2Chunk_double c1 hb
  simp only [reconstruct4, hd1, Option.getD_none, Option.getD_some]

/-- Reconstruction of data shard 1 (and Q) from data shard 0 and P. -/
theorem reconstruct4_d1_q (c0 c1 : Chunk) (hlen : c0.length = c1.length) :
    reconstruct4 (some c0) none (some (chunkXor c0 c1)) none
      = [some c0, some c1, some (chunkXor c0 c1),
         some (chunkXor c0 (gfDoubleChunk c1))] := by
  have hd1 : chunkXor (chunkXor c0 c1) c0 = c1 := by
    rw [chunkXor_cancel_left, hlen, List.take_length]
  simp only [reconstruct4, hd1, Option.getD_none, Option.getD_some]

/-! ### Shared small lemmas -/

/-- The fold computing `maxChunkIdx` never drops below its `-1` start. -/
theorem maxChunkIdx_ge (disks : List Disk) : -1 ≤ maxChunkIdx disks := by
  unfold maxChunkIdx
  have h : ∀ (l : List Disk) (a : Int), a ≤ l.foldl
      (fun acc dsk =>
        if acc < (dsk.data.length : Int) - 1 then (dsk.data.length : Int) - 1 else acc) a := by
    intro l
    induction l with
    | nil => intro a; simp
    | cons d rest ih =>
        intro a
        simp only [List.foldl_cons]
        by_cases hc : a < (d.data.length : Int) - 1
        · simp only [if_pos hc]
          exact le_trans (le_of_lt hc) (ih _)
        · simp only [if_neg hc]
          exact ih _
  exact h _ _

/-! ### RAID6 45-byte write/read characterization (claim C4) -/

theorem set_append_of_length {α : Type} {l : List α} {k : Nat} (h : l.length = k) (z c : α) :
    (l ++ [z]).set k c = l ++ [c] := by
  subst h; exact set_append_singleton l z c

theorem getD_append_of_length {α : Type} {l : List α} {k : Nat} (h : l.length = k) (z d : α) :
    (l ++ [z]).getD k d = z := by
  subst h
  induction l with
  | nil => rfl
  | cons x xs ih => simpa using ih

theorem loopFor_succ_right (f : Nat → σ → σ) (i k : Nat) (s : σ) :
    loopFor f i (k + 1) s = f (i + k) (loopFor f i k s) := by
  induction k generalizing i s with
  | zero => simp [loopFor]
  | succ k ih =>
      have h1 : loopFor f i (k + 1 + 1) s = loopFor f (i + 1) (k + 1) (f i s) := rfl
      rw [h1, ih, show loopFor f i (k + 1) s = loopFor f (i + 1) k (f i s) from rfl]
      ring_nf

theorem mkChunk_of_le {s : Nat} {src : List Nat} (h : s ≤ src.length) :
    mkChunk s src = src.take s := by
  simp [mkChunk, Nat.sub_eq_zero_of_le h]

theorem getD_map_range {α : Type} (g : Nat → α) {n k : Nat} (h : k < n) (d : α) :
    ((List.range n).map g).getD k d = g k := by
  rw [List.getD_eq_getElem?_getD, List.getElem?_map, List.getElem?_range h]
  rfl

theorem raid6WriteStripe_step (data : List Nat) (k : Nat) (l0 l1 l2 l3 : List Chunk)
    (h0 : l0.length = k) (h1 : l1.length = k) (h2 : l2.length = k) (h3 : l3.length = k) :
    raid6WriteStripe 4 4 2 2 8 0 data k
      (.ok ([⟨0, l0⟩, ⟨1, l1⟩, ⟨2, l2⟩, ⟨3, l3⟩], 8 * k))
    = .ok ([⟨0, l0 ++ [mkChunk 4 ((data.drop (8 * k)).take 8)]⟩,
            ⟨1, l1 ++ [mkChunk 4 (((data.drop (8 * k)).take 8).drop 4)]⟩,
            ⟨2, l2 ++ [chunkXor (mkChunk 4 ((data.drop (8 * k)).take 8))
                         (mkChunk 4 (((data.drop (8 * k)).take 8).drop 4))]⟩,
            ⟨3, l3 ++ [chunkXor (mkChunk 4 ((data.drop (8 * k)).take 8))
                         (gfDoubleChunk (mkChunk 4 (((data.drop (8 * k)).take 8).drop 4)))]⟩],
           8 * k + 8) := by
  simp [raid6WriteStripe, EncodeStripeShards_two, raid6Place, padChunksTo,
    setDiskData, diskDataAt, h0, h1, h2, h3, Int.zero_tdiv,
    set_append_of_length h0, set_append_of_length h1, set_append_of_length h2,
    set_append_of_length h3]
  rfl

theorem raid6WriteLoop45 (data : List Nat) (k : Nat) :
    loopFor (raid6WriteStripe 4 4 2 2 8 0 data) 0 k
      (.ok (raid6DisksAfter data 0, 0))
    = .ok (raid6DisksAfter data k, 8 * k) := by
  induction k with
  | zero => simp [loopFor]
  | succ k ih =>
      rw [loopFor_succ_right, ih]
      have step := raid6WriteStripe_step data k
        ((List.range k).map (c6d data)) ((List.range k).map (c6e data))
        ((List.range k).map (c6p data)) ((List.range k).map (c6q data))
        (by simp) (by simp) (by simp) (by simp)
      simp only [Nat.zero_add, raid6DisksAfter] at step ⊢
      rw [step]
      simp [List.range_succ, c6d, c6e, c6p, c6q, Nat.mul_succ, Nat.mul_comm]

theorem raid6RMW45 (data : List Nat) :
    raid6HandlePartialWrite 4 2 2 8 4 (raid6DisksAfter data 5) data 40 5 5 0
      = .ok (raid6Disks45 data) := by
  have L0 : ((List.range 5).map (c6d data)).length = 5 := by simp
  have L1 : ((List.range 5).map (c6e data)).length = 5 := by simp
  have L2 : ((List.range 5).map (c6p data)).length = 5 := by simp
  have L3 : ((List.range 5).map (c6q data)).length = 5 := by simp
  have htm : ((0 : Int) + 40).tmod 8 = 0 := by decide
  have htm2 : Int.tmod (40 : Int) 8 = 0 := by decide
  have hz4 : (zeroChunk 4).length = 4 := by decide
  have hzne : ¬ (zeroChunk 4 = []) := by decide
  have hbz : storeBytes (storeBytes (zeroChunk 8) 0 (zeroChunk 4)) 4 (zeroChunk 4)
      = zeroChunk 8 := by decide
  simp [raid6HandlePartialWrite, raid6DisksAfter, raid6Gather, raid6ToLogical,
    ReconstructStripeShards, padChunksTo, diskDataAt, setDiskData, raid6StoreBack,
    EncodeStripeShards_two, raid6Disks45, buf45, L0, L1, L2, L3, htm, htm2, hbz, hz4,
    hzne, -List.countP_eq_zero, List.range_succ,
    getD_append_of_length L0, getD_append_of_length L1, getD_append_of_length L2,
    getD_append_of_length L3, set_append_of_length L0, set_append_of_length L1,
    set_append_of_length L2, set_append_of_length L3,
    mkChunk_eq_self (zeroChunk_length 4)]

theorem raid6Write45 (data : List Nat) (hlen : data.length = 45) :
    RAID6Controller.Write
      { disks := [⟨0, []⟩, ⟨1, []⟩, ⟨2, []⟩, ⟨3, []⟩], stripeSz := 4,
        dataShards := 2, parityShards := 2 } data 0
    = .ok { disks := raid6Disks45 data, stripeSz := 4, dataShards := 2, parityShards := 2 } := by
  have hloop := raid6WriteLoop45 data 5
  simp only [raid6DisksAfter, List.range_zero, List.map_nil] at hloop
  have hrmw := raid6RMW45 data
  simp only [raid6DisksAfter] at hrmw
  simp only [show (8:Nat) * 5 = 40 from rfl] at hloop
  simp only [RAID6Controller.Write, hlen]
  rw [show Int.toNat 4 * 2 = 8 from rfl]
  rw [show (45 : Nat) / 8 = 5 from rfl, show (45 : Nat) % 8 = 5 from rfl,
    show (5 : Nat) * 8 = 40 from rfl]
  rw [if_neg (by decide), if_neg (by decide), if_neg (by decide)]
  rw [show Int.toNat 4 = 4 from rfl,
    show ([{ id := 0, data := [] }, { id := 1, data := [] }, { id := 2, data := [] },
          { id := 3, data := [] }] : List Disk).length = 4 from rfl]
  rw [hloop]
  have htd : ((0 : Int) + ((40 : Nat) : Int)).tdiv ((8 : Nat) : Int) = 5 := by decide
  dsimp only []
  rw [if_pos (by decide), htd, hrmw]

theorem col0_length (data : List Nat) (k : Nat) : (col0 data k).length = 4 := by
  unfold col0; split <;> exact mkChunk_length _ _

theorem col1_length (data : List Nat) (k : Nat) : (col1 data k).length = 4 := by
  unfold col1; split <;> exact mkChunk_length _ _

theorem colP_length (data : List Nat) (k : Nat) : (colP data k).length = 4 := by
  simp [colP, chunkXor_length, col0_length, col1_length]

theorem colQ_length (data : List Nat) (k : Nat) : (colQ data k).length = 4 := by
  simp [colQ, chunkXor_length, gfDoubleChunk_length, col0_length, col1_length]

theorem buf45_mem (data : List Nat) : ∀ x ∈ buf45 data, x ∈ data ∨ x = 0 := by
  intro x hx
  unfold buf45 storeBytes at hx
  simp only [List.take, List.nil_append] at hx
  rcases List.mem_append.mp hx with h | h
  · exact Or.inl (List.mem_of_mem_drop (List.mem_of_mem_take h))
  · exact Or.inr (List.eq_of_mem_replicate (List.mem_of_mem_drop h))

theorem col1_bytes (data : List Nat) (hb : ∀ b ∈ data, b < 256) (k : Nat) :
    ∀ b ∈ col1 data k, b < 256 := by
  intro b hbm
  unfold col1 at hbm
  split at hbm
  · rcases mkChunk_mem hbm with h | h
    · rcases buf45_mem data b (List.mem_of_mem_drop h) with h2 | h2
      · exact hb b h2
      · omega
    · omega
  · rcases mkChunk_mem hbm with h | h
    · exact hb b (List.mem_of_mem_drop (List.mem_of_mem_take (List.mem_of_mem_drop h)))
    · omega

theorem raid6Disks45_cleared (data : List Nat) :
    raid6Disks45 data = cleared45 data true true true true := rfl

theorem clear45_0 (data : List Nat) (b0 b1 b2 b3 : Bool) :
    RAID6Controller.ClearDisk
      ⟨cleared45 data b0 b1 b2 b3, 4, 2, 2⟩ 0
      = .ok ⟨cleared45 data false b1 b2 b3, 4, 2, 2⟩ := by
  unfold RAID6Controller.ClearDisk
  rw [if_neg (by simp [cleared45])]
  simp [setDiskData, cleared45]

theorem clear45_1 (data : List Nat) (b0 b1 b2 b3 : Bool) :
    RAID6Controller.ClearDisk
      ⟨cleared45 data b0 b1 b2 b3, 4, 2, 2⟩ 1
      = .ok ⟨cleared45 data b0 false b2 b3, 4, 2, 2⟩ := by
  unfold RAID6Controller.ClearDisk
  rw [if_neg (by simp [cleared45])]
  simp [setDiskData, cleared45]

theorem clear45_2 (data : List Nat) (b0 b1 b2 b3 : Bool) :
    RAID6Controller.ClearDisk
      ⟨cleared45 data b0 b1 b2 b3, 4, 2, 2⟩ 2
      = .ok ⟨cleared45 data b0 b1 false b3, 4, 2, 2⟩ := by
  unfold RAID6Controller.ClearDisk
  rw [if_neg (by simp [cleared45])]
  simp [setDiskData, cleared45]

theorem clear45_3 (data : List Nat) (b0 b1 b2 b3 : Bool) :
    RAID6Controller.ClearDisk
      ⟨cleared45 data b0 b1 b2 b3, 4, 2, 2⟩ 3
      = .ok ⟨cleared45 data b0 b1 b2 false, 4, 2, 2⟩ := by
  unfold RAID6Controller.ClearDisk
  rw [if_neg (by simp [cleared45])]
  simp [setDiskData, cleared45]


theorem gather45_eq (data : List Nat) (b0 b1 b2 b3 : Bool) (k : Nat) (hk : k < 6) :
    raid6Gather 4 k (cleared45 data b0 b1 b2 b3) 4 0 []
    = [if b0 then some (col0 data k) else none,
       if b1 then some (col1 data k) else none,
       if b2 then some (colP data k) else none,
       if b3 then some (colQ data k) else none] := by
  have h0 := col0_length data k
  have h1 := col1_length data k
  have h2 := colP_length data k
  have h3 := colQ_length data k
  have g0 : ((List.range 6).map (col0 data)).getD k [] = col0 data k :=
    getD_map_range (col0 data) hk []
  have g1 : ((List.range 6).map (col1 data)).getD k [] = col1 data k :=
    getD_map_range (col1 data) hk []
  have g2 : ((List.range 6).map (colP data)).getD k [] = colP data k :=
    getD_map_range (colP data) hk []
  have g3 : ((List.range 6).map (colQ data)).getD k [] = colQ data k :=
    getD_map_range (colQ data) hk []
  cases b0 <;> cases b1 <;> cases b2 <;> cases b3 <;>
    simp [raid6Gather, cleared45, diskDataAt, g0, g1, g2, g3, hk, h0, h1, h2, h3,
      mkChunk_eq_self h0, mkChunk_eq_self h1, mkChunk_eq_self h2, mkChunk_eq_self h3]

theorem rec45_01 (data : List Nat) (hb : ∀ b ∈ data, b < 256) (k : Nat) :
    ReconstructStripeShards
        [none, none, some (colP data k), some (colQ data k)] 2 2
      = .ok [some (col0 data k), some (col1 data k),
             some (colP data k), some (colQ data k)] := by
  have h := reconstruct4_data_data (col0 data k) (col1 data k)
    (by rw [col0_length, col1_length]) (col1_bytes data hb k)
  calc ReconstructStripeShards [none, none, some (colP data k), some (colQ data k)] 2 2
      = .ok (reconstruct4 none none
          (some (chunkXor (col0 data k) (col1 data k)))
          (some (chunkXor (col0 data k) (gfDoubleChunk (col1 data k))))) := rfl
    _ = _ := by rw [h]; rfl

theorem rec45_02 (data : List Nat) (k : Nat) :
    ReconstructStripeShards
        [none, some (col1 data k), none, some (colQ data k)] 2 2
      = .ok [some (col0 data k), some (col1 data k),
             some (colP data k), some (colQ data k)] := by
  have h := reconstruct4_d0_p (col0 data k) (col1 data k)
    (by rw [col0_length, col1_length])
  calc ReconstructStripeShards [none, some (col1 data k), none, some (colQ data k)] 2 2
      = .ok (reconstruct4 none (some (col1 data k)) none
          (some (chunkXor (col0 data k) (gfDoubleChunk (col1 data k))))) := rfl
    _ = _ := by rw [h]; rfl

theorem rec45_03 (data : List Nat) (k : Nat) :
    ReconstructStripeShards
        [none, some (col1 data k), some (colP data k), none] 2 2
      = .ok [some (col0 data k), some (col1 data k),
             some (colP data k), some (colQ data k)] := by
  have h := reconstruct4_d0_q (col0 data k) (col1 data k)
    (by rw [col0_length, col1_length])
  calc ReconstructStripeShards [none, some (col1 data k), some (colP data k), none] 2 2
      = .ok (reconstruct4 none (some (col1 data k))
          (some (chunkXor (col0 data k) (col1 data k))) none) := rfl
    _ = _ := by rw [h]; rfl

theorem rec45_12 (data : List Nat) (hb : ∀ b ∈ data, b < 256) (k : Nat) :
    ReconstructStripeShards
        [some (col0 data k), none, none, some (colQ data k)] 2 2
      = .ok [some (col0 data k), some (col1 data k),
             some (colP data k), some (colQ data k)] := by
  have h := reconstruct4_d1_p (col0 data k) (col1 data k)
    (by rw [col0_length, col1_length]) (col1_bytes data hb k)
  calc ReconstructStripeShards [some (col0 data k), none, none, some (colQ data k)] 2 2
      = .ok (reconstruct4 (some (col0 data k)) none none
          (some (chunkXor (col0 data k) (gfDoubleChunk (col1 data k))))) := rfl
    _ = _ := by rw [h]; rfl

theorem rec45_13 (data : List Nat) (k : Nat) :
    ReconstructStripeShards
        [some (col0 data k), none, some (colP data k), none] 2 2
      = .ok [some (col0 data k), some (col1 data k),
             some (colP data k), some (colQ data k)] := by
  have h := reconstruct4_d1_q (col0 data k) (col1 data k)
    (by rw [col0_length, col1_length])
  calc ReconstructStripeShards [some (col0 data k), none, some (colP data k), none] 2 2
      = .ok (reconstruct4 (some (col0 data k)) none
          (some (chunkXor (col0 data k) (col1 data k))) none) := rfl
    _ = _ := by rw [h]; rfl

theorem rec45_23 (data : List Nat) (k : Nat) :
    ReconstructStripeShards
        [some (col0 data k), some (col1 data k), none, none] 2 2
      = .ok [some (col0 data k), some (col1 data k),
             some (colP data k), some (colQ data k)] := rfl

theorem readStripe45_of (data : List Nat) (b0 b1 b2 b3 : Bool) (k : Nat) (hk : k < 6)
    (hrec : ReconstructStripeShards
        [if b0 then some (col0 data k) else none,
         if b1 then some (col1 data k) else none,
         if b2 then some (colP data k) else none,
         if b3 then some (colQ data k) else none] 2 2
      = .ok [some (col0 data k), some (col1 data k),
             some (colP data k), some (colQ data k)])
    (acc : List Nat) :
    raid6ReadStripe 4 4 2 2 (cleared45 data b0 b1 b2 b3) 0 5 0 4 k acc
      = .ok (acc ++ w45 data k) := by
  have hgather := gather45_eq data b0 b1 b2 b3 k hk
  have hlog : raid6ToLogical 4 2
      [if b0 then some (col0 data k) else none, if b1 then some (col1 data k) else none,
       if b2 then some (colP data k) else none, if b3 then some (colQ data k) else none]
      = [if b0 then some (col0 data k) else none, if b1 then some (col1 data k) else none,
         if b2 then some (colP data k) else none, if b3 then some (colQ data k) else none] := by
    simp [raid6ToLogical, List.range_succ]
  have hasm : raid6Assemble 4
      [some (col0 data k), some (col1 data k), some (colP data k), some (colQ data k)]
      2 0 [] = .ok (col0 data k ++ col1 data k) := by
    simp [raid6Assemble, col0_length data k, col1_length data k]
  have hll : (col0 data k ++ col1 data k).length = 8 := by
    rw [List.length_append, col0_length, col1_length]
  simp only [raid6ReadStripe, hgather, hlog, hrec, hasm]
  by_cases hk5 : k = 5
  · subst hk5
    norm_num [w45, hll]
  · norm_num [w45, hll, hk5, List.take_of_length_le (le_of_eq hll)]


theorem loopForE_six (f : Nat → List Nat → Except Err (List Nat)) (w : Nat → List Nat)
    (h : ∀ k, k < 6 → ∀ acc, f k acc = .ok (acc ++ w k)) :
    loopForE f 0 6 []
      = .ok (w 0 ++ w 1 ++ w 2 ++ w 3 ++ w 4 ++ w 5) := by
  simp only [loopForE, h 0 (by norm_num), h 1 (by norm_num), h 2 (by norm_num),
    h 3 (by norm_num), h 4 (by norm_num), h 5 (by norm_num), List.nil_append,
    List.append_assoc]

theorem col01_full (data : List Nat) (k : Nat)
    (ht : 8 ≤ (data.drop (8 * k)).length) (hk5 : k ≠ 5) :
    col0 data k ++ col1 data k = (data.drop (8 * k)).take 8 := by
  have hlen8 : ((data.drop (8 * k)).take 8).length = 8 := by
    rw [List.length_take]; omega
  unfold col0 col1
  rw [if_neg hk5, if_neg hk5]
  rw [mkChunk_of_le (by rw [hlen8]; norm_num),
      mkChunk_of_le (by rw [List.length_drop, hlen8])]
  rw [← List.take_add]
  exact List.take_of_length_le (by omega)

theorem buf45_length (data : List Nat) (hlen : data.length = 45) :
    (buf45 data).length = 8 := by
  unfold buf45 storeBytes
  simp [zeroChunk, hlen]

theorem col01_five (data : List Nat) (hlen : data.length = 45) :
    col0 data 5 ++ col1 data 5 = buf45 data := by
  have hb8 := buf45_length data hlen
  unfold col0 col1
  rw [if_pos rfl, if_pos rfl]
  rw [mkChunk_of_le (by rw [hb8]; norm_num),
      mkChunk_of_le (by rw [List.length_drop, hb8])]
  rw [← List.take_add]
  exact List.take_of_length_le (by omega)

theorem w45_eq_lt5 (data : List Nat) (hdl : 40 ≤ data.length) (k : Nat) (hk : k < 5) :
    w45 data k = (data.drop (8 * k)).take 8 := by
  unfold w45
  rw [if_neg (by omega)]
  rw [col01_full data k (by rw [List.length_drop]; omega) (by omega)]
  simp [List.take_take]

theorem w45_eq_5 (data : List Nat) (hlen : data.length = 45) :
    w45 data 5 = data.drop 40 := by
  have hd5 : (data.drop 40).length = 5 := by rw [List.length_drop, hlen]
  have hsrc : ((data.drop 40).take 5).length = 5 := by
    rw [List.length_take]; omega
  unfold w45
  rw [if_pos rfl, col01_five data hlen]
  unfold buf45 storeBytes
  rw [List.take_zero, List.nil_append,
    List.take_append_of_le_length (by rw [hsrc]),
    List.take_of_length_le (by omega), List.take_of_length_le (by omega)]

theorem w45_concat (data : List Nat) (hlen : data.length = 45) :
    w45 data 0 ++ w45 data 1 ++ w45 data 2 ++ w45 data 3 ++ w45 data 4 ++ w45 data 5
      = data := by
  have hdl : 40 ≤ data.length := by omega
  rw [w45_eq_lt5 data hdl 0 (by norm_num), w45_eq_lt5 data hdl 1 (by norm_num),
      w45_eq_lt5 data hdl 2 (by norm_num), w45_eq_lt5 data hdl 3 (by norm_num),
      w45_eq_lt5 data hdl 4 (by norm_num), w45_eq_5 data hlen]
  norm_num
  rw [show data.drop 40 = (data.drop 32).drop 8 from by rw [List.drop_drop]]
  rw [List.take_append_drop]
  rw [show data.drop 32 = (data.drop 24).drop 8 from by rw [List.drop_drop]]
  rw [List.take_append_drop]
  rw [show data.drop 24 = (data.drop 16).drop 8 from by rw [List.drop_drop]]
  rw [List.take_append_drop]
  rw [show data.drop 16 = (data.drop 8).drop 8 from by rw [List.drop_drop]]
  rw [List.take_append_drop]
  rw [List.take_append_drop]

theorem maxChunkIdx_cleared45 (data : List Nat) (b0 b1 b2 b3 : Bool)
    (h : b0 = true ∨ b1 = true ∨ b2 = true ∨ b3 = true) :
    maxChunkIdx (cleared45 data b0 b1 b2 b3) = 5 := by
  cases b0 <;> cases b1 <;> cases b2 <;> cases b3 <;>
    simp_all [maxChunkIdx, cleared45]

theorem raid6Read45_of (data : List Nat) (hlen : data.length = 45) (b0 b1 b2 b3 : Bool)
    (hone : b0 = true ∨ b1 = true ∨ b2 = true ∨ b3 = true)
    (hs : ∀ k, k < 6 → ∀ acc,
      raid6ReadStripe 4 4 2 2 (cleared45 data b0 b1 b2 b3) 0 5 0 4 k acc
        = .ok (acc ++ w45 data k)) :
    RAID6Controller.Read ⟨cleared45 data b0 b1 b2 b3, 4, 2, 2⟩ 0 45 = .ok data := by
  have hmax := maxChunkIdx_cleared45 data b0 b1 b2 b3 hone
  have hloop := loopForE_six
    (raid6ReadStripe 4 4 2 2 (cleared45 data b0 b1 b2 b3) 0 5 0 4) (w45 data) hs
  have hl4 : (cleared45 data b0 b1 b2 b3).length = 4 := rfl
  simp only [RAID6Controller.Read, hl4, hmax]
  rw [if_neg (by decide), if_neg (by decide), if_neg (by decide), if_neg (by decide),
    if_neg (by decide), if_neg (by decide), if_neg (by decide)]
  show (match loopForE (raid6ReadStripe 4 4 2 2 (cleared45 data b0 b1 b2 b3) 0 5 0 4)
      0 6 [] with
    | Except.error e => Except.error e
    | Except.ok result => Except.ok (result.take 45)) = Except.ok data
  rw [hloop]
  show Except.ok ((w45 data 0 ++ w45 data 1 ++ w45 data 2 ++ w45 data 3 ++ w45 data 4
    ++ w45 data 5).take 45) = Except.ok data
  rw [w45_concat data hlen]
  rw [show (45 : Nat) = data.length from hlen.symm, List.take_length]


theorem read45_01 (data : List Nat) (hlen : data.length = 45) (hb : ∀ b ∈ data, b < 256) :
    RAID6Controller.Read ⟨cleared45 data false false true true, 4, 2, 2⟩ 0 45
      = .ok data :=
  raid6Read45_of data hlen false false true true (by simp)
    (fun k hk acc => readStripe45_of data false false true true k hk (rec45_01 data hb k) acc)

theorem read45_02 (data : List Nat) (hlen : data.length = 45) :
    RAID6Controller.Read ⟨cleared45 data false true false true, 4, 2, 2⟩ 0 45
      = .ok data :=
  raid6Read45_of data hlen false true false true (by simp)
    (fun k hk acc => readStripe45_of data false true false true k hk (rec45_02 data k) acc)

theorem read45_03 (data : List Nat) (hlen : data.length = 45) :
    RAID6Controller.Read ⟨cleared45 data false true true false, 4, 2, 2⟩ 0 45
      = .ok data :=
  raid6Read45_of data hlen false true true false (by simp)
    (fun k hk acc => readStripe45_of data false true true false k hk (rec45_03 data k) acc)

theorem read45_12 (data : List Nat) (hlen : data.length = 45) (hb : ∀ b ∈ data, b < 256) :
    RAID6Controller.Read ⟨cleared45 data true false false true, 4, 2, 2⟩ 0 45
      = .ok data :=
  raid6Read45_of data hlen true false false true (by simp)
    (fun k hk acc => readStripe45_of data true false false true k hk (rec45_12 data hb k) acc)

theorem read45_13 (data : List Nat) (hlen : data.length = 45) :
    RAID6Controller.Read ⟨cleared45 data true false true false, 4, 2, 2⟩ 0 45
      = .ok data :=
  raid6Read45_of data hlen true false true false (by simp)
    (fun k hk acc => readStripe45_of data true false true false k hk (rec45_13 data k) acc)

theorem read45_23 (data : List Nat) (hlen : data.length = 45) :
    RAID6Controller.Read ⟨cleared45 data true true false false, 4, 2, 2⟩ 0 45
      = .ok data :=
  raid6Read45_of data hlen true true false false (by simp)
    (fun k hk acc => readStripe45_of data true true false false k hk (rec45_23 data k) acc)

theorem except_ok_bind {α β : Type} (a : α) (f : α → Except Err β) :
    (Except.ok a >>= f) = f a := rfl

/-! ### RAID5 two-clear / RAID6 three-clear read failures (claim C5) -/

theorem raid5Write2 (a b : Nat) :
    RAID5Controller.Write ⟨[⟨0, []⟩, ⟨1, []⟩, ⟨2, []⟩], 1⟩ [a, b] 0
      = .ok ⟨[⟨0, [par5 a b]⟩, ⟨1, [[a]]⟩, ⟨2, [[b]]⟩], 1⟩ := by
  simp only [RAID5Controller.Write, show ([a, b] : List Nat).length = 2 from rfl]
  rfl

theorem raid6Read45_err_of (data : List Nat) (b0 b1 b2 b3 : Bool)
    (hone : b0 = true ∨ b1 = true ∨ b2 = true ∨ b3 = true)
    (hs0 : raid6ReadStripe 4 4 2 2 (cleared45 data b0 b1 b2 b3) 0 5 0 4 0 []
      = .error .tooManyMissingShards) :
    RAID6Controller.Read ⟨cleared45 data b0 b1 b2 b3, 4, 2, 2⟩ 0 45
      = .error .tooManyMissingShards := by
  have hmax := maxChunkIdx_cleared45 data b0 b1 b2 b3 hone
  have hl4 : (cleared45 data b0 b1 b2 b3).length = 4 := rfl
  have hloop : loopForE (raid6ReadStripe 4 4 2 2 (cleared45 data b0 b1 b2 b3) 0 5 0 4)
      0 6 [] = .error .tooManyMissingShards := by
    simp only [loopForE, hs0]
  simp only [RAID6Controller.Read, hl4, hmax]
  rw [if_neg (by decide), if_neg (by decide), if_neg (by decide), if_neg (by decide),
    if_neg (by decide), if_neg (by decide), if_neg (by decide)]
  show (match loopForE (raid6ReadStripe 4 4 2 2 (cleared45 data b0 b1 b2 b3) 0 5 0 4)
      0 6 [] with
    | Except.error e => Except.error e
    | Except.ok result => Except.ok (result.take 45)) = Except.error Err.tooManyMissingShards
  rw [hloop]

theorem raid6Read45_threeClear (data : List Nat) (b0 b1 b2 b3 : Bool)
    (hone : b0 = true ∨ b1 = true ∨ b2 = true ∨ b3 = true)
    (hcnt : (if b0 then 1 else 0) + (if b1 then 1 else 0)
      + (if b2 then 1 else 0) + (if b3 then 1 else 0) ≤ 1) :
    RAID6Controller.Read ⟨cleared45 data b0 b1 b2 b3, 4, 2, 2⟩ 0 45
      = .error .tooManyMissingShards := by
  refine raid6Read45_err_of data b0 b1 b2 b3 hone ?_
  have hg := gather45_eq data b0 b1 b2 b3 0 (by norm_num)
  cases b0 <;> cases b1 <;> cases b2 <;> cases b3
  all_goals first
    | exact absurd hcnt (by decide)
    | exact absurd hone (by decide)
    | (simp only [raid6ReadStripe, hg]; rfl)

/-- Common front matter of `RAID5Controller.Read` on a one-stripe 3-member
array: with the maximum chunk index pinned to 0, reading the first two
bytes runs exactly one stripe read. -/
theorem raid5Read2_err (d0 d1 d2 : List Chunk)
    (hmax : maxChunkIdx [⟨0, d0⟩, ⟨1, d1⟩, ⟨2, d2⟩] = 0)
    (hs : raid5ReadStripe 1 3 [⟨0, d0⟩, ⟨1, d1⟩, ⟨2, d2⟩] 0 0 0 1 0 []
      = .error .multipleDiskFailures) :
    RAID5Controller.Read ⟨[⟨0, d0⟩, ⟨1, d1⟩, ⟨2, d2⟩], 1⟩ 0 2
      = .error .multipleDiskFailures := by
  have hl3 : ([⟨0, d0⟩, ⟨1, d1⟩, ⟨2, d2⟩] : List Disk).length = 3 := rfl
  have hloop : loopForE (raid5ReadStripe 1 3 [⟨0, d0⟩, ⟨1, d1⟩, ⟨2, d2⟩] 0 0 0 1) 0 1 []
      = .error .multipleDiskFailures := by
    simp only [loopForE, hs]
  simp only [RAID5Controller.Read, hl3, hmax]
  rw [if_neg (by decide), if_neg (by decide), if_neg (by decide), if_neg (by decide),
    if_neg (by decide), if_neg (by decide), if_neg (by decide)]
  show (match loopForE (raid5ReadStripe 1 3 [⟨0, d0⟩, ⟨1, d1⟩, ⟨2, d2⟩] 0 0 0 1) 0 1 [] with
    | Except.error e => Except.error e
    | Except.ok result => Except.ok (result.take 2)) = Except.error Err.multipleDiskFailures
  rw [hloop]

theorem raid5Clear3_0 (c0 c1 c2 : List Chunk) :
    RAID5Controller.ClearDisk ⟨[⟨0, c0⟩, ⟨1, c1⟩, ⟨2, c2⟩], 1⟩ 0
      = .ok ⟨[⟨0, []⟩, ⟨1, c1⟩, ⟨2, c2⟩], 1⟩ := by
  unfold RAID5Controller.ClearDisk
  rw [if_neg (by simp)]
  simp [setDiskData]

theorem raid5Clear3_1 (c0 c1 c2 : List Chunk) :
    RAID5Controller.ClearDisk ⟨[⟨0, c0⟩, ⟨1, c1⟩, ⟨2, c2⟩], 1⟩ 1
      = .ok ⟨[⟨0, c0⟩, ⟨1, []⟩, ⟨2, c2⟩], 1⟩ := by
  unfold RAID5Controller.ClearDisk
  rw [if_neg (by simp)]
  simp [setDiskData]

theorem raid5Clear3_2 (c0 c1 c2 : List Chunk) :
    RAID5Controller.ClearDisk ⟨[⟨0, c0⟩, ⟨1, c1⟩, ⟨2, c2⟩], 1⟩ 2
      = .ok ⟨[⟨0, c0⟩, ⟨1, c1⟩, ⟨2, []⟩], 1⟩ := by
  unfold RAID5Controller.ClearDisk
  rw [if_neg (by simp)]
  simp [setDiskData]

/-! ### RAID0 single-clear reads on the four-byte array (claim C9) -/

theorem raid0Write4 (a b c d : Nat) :
    RAID0Controller.Write ⟨[⟨0, []⟩, ⟨1, []⟩], 1⟩ [a, b, c, d] 0
      = .ok ⟨[⟨0, [[a], [c]]⟩, ⟨1, [[b], [d]]⟩], 1⟩ := by
  simp [RAID0Controller.Write, raid0WriteLoop, setDiskData, diskDataAt,
    padChunksTo, storeBytes, zeroChunk]

theorem raid0Clear2_0 (c0 c1 : List Chunk) :
    RAID0Controller.ClearDisk ⟨[⟨0, c0⟩, ⟨1, c1⟩], 1⟩ 0
      = .ok ⟨[⟨0, []⟩, ⟨1, c1⟩], 1⟩ := by
  unfold RAID0Controller.ClearDisk
  rw [if_neg (by simp)]
  simp [setDiskData]

theorem raid0Clear2_1 (c0 c1 : List Chunk) :
    RAID0Controller.ClearDisk ⟨[⟨0, c0⟩, ⟨1, c1⟩], 1⟩ 1
      = .ok ⟨[⟨0, c0⟩, ⟨1, []⟩], 1⟩ := by
  unfold RAID0Controller.ClearDisk
  rw [if_neg (by simp)]
  simp [setDiskData]

theorem raid0ReadC0_err01 (b d : Nat) :
    RAID0Controller.Read ⟨[⟨0, []⟩, ⟨1, [[b], [d]]⟩], 1⟩ 0 1
      = .error .chunkUnavailable := by
  simp [RAID0Controller.Read, raid0MaxWritten, raid0ReadLoop, diskDataAt]

theorem raid0ReadC0_ok11 (b d : Nat) :
    RAID0Controller.Read ⟨[⟨0, []⟩, ⟨1, [[b], [d]]⟩], 1⟩ 1 1
      = .ok [b] := by
  simp [RAID0Controller.Read, raid0MaxWritten, raid0ReadLoop, diskDataAt]


theorem raid0ReadC0_err04 (b d : Nat) :
    RAID0Controller.Read ⟨[⟨0, []⟩, ⟨1, [[b], [d]]⟩], 1⟩ 0 4
      = .error .chunkUnavailable := by
  simp [RAID0Controller.Read, raid0MaxWritten, raid0ReadLoop, diskDataAt]

theorem raid0ReadC0_err12 (b d : Nat) :
    RAID0Controller.Read ⟨[⟨0, []⟩, ⟨1, [[b], [d]]⟩], 1⟩ 1 2
      = .error .chunkUnavailable := by
  simp [RAID0Controller.Read, raid0MaxWritten, raid0ReadLoop, diskDataAt]

theorem raid0ReadC0_ok31 (b d : Nat) :
    RAID0Controller.Read ⟨[⟨0, []⟩, ⟨1, [[b], [d]]⟩], 1⟩ 3 1
      = .ok [d] := by
  simp [RAID0Controller.Read, raid0MaxWritten, raid0ReadLoop, diskDataAt]

theorem raid0ReadC1_err11 (a c : Nat) :
    RAID0Controller.Read ⟨[⟨0, [[a], [c]]⟩, ⟨1, []⟩], 1⟩ 1 1
      = .error .chunkUnavailable := by
  simp [RAID0Controller.Read, raid0MaxWritten, raid0ReadLoop, diskDataAt]

theorem raid0ReadC1_ok01 (a c : Nat) :
    RAID0Controller.Read ⟨[⟨0, [[a], [c]]⟩, ⟨1, []⟩], 1⟩ 0 1
      = .ok [a] := by
  simp [RAID0Controller.Read, raid0MaxWritten, raid0ReadLoop, diskDataAt]

theorem raid0ReadC1_ok21 (a c : Nat) :
    RAID0Controller.Read ⟨[⟨0, [[a], [c]]⟩, ⟨1, []⟩], 1⟩ 2 1
      = .ok [c] := by
  simp [RAID0Controller.Read, raid0MaxWritten, raid0ReadLoop, diskDataAt]

/-! ### Claim theorems: concrete divergences and scenarios -/

/-- Claim C1 (code bug): the round-trip property fails on RAID5.  On a
fresh 3-member, stripe-size-1 RAID5 controller, writing the 7 bytes
`"ABCDEFG"` at offset 0 and reading the same range back yields the 6
bytes `"GBCDEF"` with no error: the partial-stripe RMW targets stripe
`offset / bytesPerFullStripe = 0` instead of the stripe after the full
ones, overwriting `"A"` with `"G"`, and the read is then truncated.  The
repository's own test `WriteAndRead_With_Partial_Writing` asserts the
round-trip on exactly this input. -/
theorem C1_partial_write_divergence :
    (do
      let r ← NewRAID5Controller 3 1
      let r ← r.Write [65, 66, 67, 68, 69, 70, 71] 0
      r.Read 0 7 : Except Err (List Nat))
      = .ok [71, 66, 67, 68, 69, 70]
    ∧ [71, 66, 67, 68, 69, 70] ≠ [65, 66, 67, 68, 69, 70, 71] := by
  exact ⟨rfl, by decide⟩

/-- Claim C2 (code bug): single-failure recovery fails on RAID5 for data
with a partial tail.  Writing `"ABC"` on a fresh 3-member stripe-size-1
RAID5 controller, clearing member 0 and reading the range returns
`"CB"`, not `"ABC"`: the same RMW stripe-index slip as in the round-trip
corrupts stripe 0 before the failure is even injected. -/
theorem C2_single_failure_divergence :
    (do
      let r ← NewRAID5Controller 3 1
      let r ← r.Write [65, 66, 67] 0
      let r ← r.ClearDisk 0
      r.Read 0 3 : Except Err (List Nat))
      = .ok [67, 66]
    ∧ [67, 66] ≠ [65, 66, 67] := by
  exact ⟨rfl, by decide⟩

/-- Claim C3 (confirmed): on a 3-member, stripe-size-1 RAID5 controller,
writing `"ABCDEFGH"` at offset 0 produces the member layout
`[P0,C,E,P3]`, `[A,P1,F,G]`, `[B,D,P2,H]` with `P0=A⊕B`, `P1=C⊕D`,
`P2=E⊕F`, `P3=G⊕H` (parity member `stripeIndex mod 3`); `Read(0,8)`
returns `"ABCDEFGH"`, and after `ClearDisk(0)` the read still returns
`"ABCDEFGH"`. -/
theorem C3_raid5_concrete_scenario :
    (do
      let r ← NewRAID5Controller 3 1
      let r ← r.Write [65, 66, 67, 68, 69, 70, 71, 72] 0
      pure (r.disks.map Disk.data) : Except Err (List (List Chunk)))
      = .ok [[[65 ^^^ 66], [67], [69], [71 ^^^ 72]],
             [[65], [67 ^^^ 68], [70], [71]],
             [[66], [68], [69 ^^^ 70], [72]]]
    ∧ (do
      let r ← NewRAID5Controller 3 1
      let r ← r.Write [65, 66, 67, 68, 69, 70, 71, 72] 0
      r.Read 0 8 : Except Err (List Nat))
      = .ok [65, 66, 67, 68, 69, 70, 71, 72]
    ∧ (do
      let r ← NewRAID5Controller 3 1
      let r ← r.Write [65, 66, 67, 68, 69, 70, 71, 72] 0
      let r ← r.ClearDisk 0
      r.Read 0 8 : Except Err (List Nat))
      = .ok [65, 66, 67, 68, 69, 70, 71, 72] := by
  exact ⟨rfl, rfl, rfl⟩

/-- Claim C6, counterexample: `NewRAID0Controller` performs no validation
at all — with 0 members and stripe size 0 it returns a controller, not a
construction error (its Go signature has no error result). -/
theorem C6_raid0_constructor_counterexample :
    NewRAID0Controller 0 0 = { disks := [], stripeSz := 0 } := rfl

/-- Claim C6 (amended): the RAID1, RAID10, RAID5 and RAID6 constructors
return a construction error whenever the member count is below the
level's minimum (2 / even 4 / 3 / 4) or the stripe size is not positive;
RAID0's constructor does not validate. -/
theorem C6_constructor_validation_amended (memberCount stripeSize : Int) :
    (memberCount < 2 ∨ stripeSize ≤ 0 →
      ∃ e, NewRAID1Controller memberCount stripeSize = .error e)
  ∧ (memberCount < 4 ∨ memberCount.tmod 2 ≠ 0 ∨ stripeSize ≤ 0 →
      ∃ e, NewRAID10Controller memberCount stripeSize = .error e)
  ∧ (memberCount < 3 ∨ stripeSize ≤ 0 →
      ∃ e, NewRAID5Controller memberCount stripeSize = .error e)
  ∧ (memberCount < 4 ∨ stripeSize ≤ 0 →
      ∃ e, NewRAID6Controller memberCount stripeSize = .error e) := by
  refine ⟨?_, ?_, ?_, ?_⟩
  · intro h
    unfold NewRAID1Controller
    split_ifs with h1 h2
    · exact ⟨_, rfl⟩
    · exact ⟨_, rfl⟩
    · exact absurd h (by simp [h1, h2])
  · intro h
    unfold NewRAID10Controller
    split_ifs with h1 h2
    · exact ⟨_, rfl⟩
    · exact ⟨_, rfl⟩
    · rcases h with h | h | h
      · exact absurd (Or.inl h) h1
      · exact absurd (Or.inr h) h1
      · exact absurd h h2
  · intro h
    unfold NewRAID5Controller
    split_ifs with h1 h2
    · exact ⟨_, rfl⟩
    · exact ⟨_, rfl⟩
    · exact absurd h (by simp [h1, h2])
  · intro h
    unfold NewRAID6Controller
    split_ifs with h1 h2
    · exact ⟨_, rfl⟩
    · exact ⟨_, rfl⟩
    · exact absurd h (by simp [h1, h2])

/-- Witness for the amended claim C6 at member count 1 and stripe size 0. -/
theorem C6_constructor_validation_witness :
    (∃ e, NewRAID1Controller 1 0 = .error e)
  ∧ (∃ e, NewRAID10Controller 1 0 = .error e)
  ∧ (∃ e, NewRAID5Controller 1 0 = .error e)
  ∧ (∃ e, NewRAID6Controller 1 0 = .error e) := by
  have h := C6_constructor_validation_amended 1 0
  exact ⟨h.1 (Or.inl (by norm_num)), h.2.1 (Or.inl (by norm_num)),
    h.2.2.1 (Or.inl (by norm_num)), h.2.2.2 (Or.inl (by norm_num))⟩

/-- Claim C7, counterexample: `RAID5Controller.Write` does not validate
the offset sign — writing one byte at offset `-1` on a fresh 3-member
stripe-size-1 RAID5 controller succeeds (the RMW stripe index
`(-1)/2` truncates to 0 in Go). -/
theorem C7_raid5_negative_offset_counterexample :
    ∃ r2 : RAID5Controller,
      (do
        let r ← NewRAID5Controller 3 1
        r.Write [65] (-1) : Except Err RAID5Controller) = .ok r2 :=
  ⟨_, rfl⟩

/-- Claim C7 (amended): for RAID0, RAID1 and RAID10 every write of
non-empty data at a negative offset returns an error (whatever the
controller state); RAID5 and RAID6 do not check the offset sign. -/
theorem C7_negative_offset_amended (r0 : RAID0Controller) (r1 : RAID1Controller)
    (r10 : RAID10Controller) (data : List Nat) (offset : Int)
    (hd : data ≠ []) (hoff : offset < 0) :
    (∃ e, r0.Write data offset = .error e)
  ∧ (∃ e, r1.Write data offset = .error e)
  ∧ (∃ e, r10.Write data offset = .error e) := by
  refine ⟨?_, ?_, ?_⟩
  · unfold RAID0Controller.Write
    split_ifs with h1 h2 h3
    · exact absurd (List.length_eq_zero.mp h1) hd
    · exact ⟨_, rfl⟩
    · exact ⟨_, rfl⟩
    · exact ⟨_, rfl⟩
  · unfold RAID1Controller.Write
    split_ifs with h1 h2 h3
    · exact ⟨_, rfl⟩
    · exact absurd (List.length_eq_zero.mp h2) hd
    · exact ⟨_, rfl⟩
    · exact ⟨_, rfl⟩
  · unfold RAID10Controller.Write
    split_ifs with h1 h2 h3
    · exact absurd (List.length_eq_zero.mp h1) hd
    · exact ⟨_, rfl⟩
    · exact ⟨_, rfl⟩
    · exact ⟨_, rfl⟩

/-- Witness for the amended claim C7 on fresh 2/2/4-member controllers,
one data byte, offset `-1`. -/
theorem C7_negative_offset_witness :
    (∃ e, ({ disks := [{ id := 0, data := [] }, { id := 1, data := [] }], stripeSz := 1 } :
        RAID0Controller).Write [65] (-1) = .error e)
  ∧ (∃ e, ({ disks := [{ id := 0, data := [] }, { id := 1, data := [] }], stripeSz := 1 } :
        RAID1Controller).Write [65] (-1) = .error e)
  ∧ (∃ e, ({ mirrors := [[{ id := 0, data := [] }, { id := 1, data := [] }],
                         [{ id := 2, data := [] }, { id := 3, data := [] }]], stripeSz := 1 } :
        RAID10Controller).Write [65] (-1) = .error e) :=
  C7_negative_offset_amended _ _ _ [65] (-1) (by decide) (by norm_num)

/-- Claim C8, counterexample: a zero-length read is not always an empty
success — on a freshly constructed (never written) RAID5 controller,
`Read(0, 0)` fails with the no-data-written error. -/
theorem C8_zero_length_read_counterexample :
    (do
      let r ← NewRAID5Controller 3 1
      r.Read 0 0 : Except Err (List Nat)) = .error .noDataWritten := rfl

/-- Claim C8 (amended): `Read(start, 0)` returns an empty result and no
error whenever `start ≥ 0` lies strictly below the level's computed
maximum written offset; on a never-written controller RAID5/6 fail with
the no-data-written error and RAID0/1/10 fail for `start` beyond the
maximum. -/
theorem C8_zero_length_read_amended :
    (∀ (r : RAID0Controller) (start : Int), 0 ≤ start → r.disks.length ≠ 0 → 0 < r.stripeSz →
      start < raid0MaxWritten r → r.Read start 0 = .ok [])
  ∧ (∀ (r : RAID1Controller) (start : Int), 0 ≤ start → r.disks.length ≠ 0 → 0 < r.stripeSz →
      start < raid1MaxWritten r → r.Read start 0 = .ok [])
  ∧ (∀ (r : RAID10Controller) (start : Int), 0 ≤ start → r.mirrors.length ≠ 0 → 0 < r.stripeSz →
      start < raid10MaxWritten r → r.Read start 0 = .ok [])
  ∧ (∀ (r : RAID5Controller) (start : Int), 0 ≤ start → 3 ≤ r.disks.length → 0 < r.stripeSz →
      start < (maxChunkIdx r.disks + 1) * ((r.stripeSz.toNat * (r.disks.length - 1) : Nat) : Int) →
      r.Read start 0 = .ok [])
  ∧ (∀ (r : RAID6Controller) (start : Int), 0 ≤ start → 4 ≤ r.disks.length → 0 < r.stripeSz →
      0 < r.dataShards →
      start < (maxChunkIdx r.disks + 1) * ((r.stripeSz.toNat * r.dataShards : Nat) : Int) →
      r.Read start 0 = .ok []) := by
  refine ⟨?_, ?_, ?_, ?_, ?_⟩
  · intro r start h0 hn hs hlt
    simp only [RAID0Controller.Read]
    split_ifs with h1 h2 h3 h4 h5
    · omega
    · omega
    · omega
    · rfl
    · rfl
    · have hq := min_le_left (start + 0) (raid0MaxWritten r)
      omega
  · intro r start h0 hn hs hlt
    simp only [RAID1Controller.Read]
    split_ifs with h1 h2 h3 h4 h5
    · omega
    · omega
    · omega
    · rfl
    · rfl
    · have hq := min_le_left (start + 0) (raid1MaxWritten r)
      omega
  · intro r start h0 hn hs hlt
    simp only [RAID10Controller.Read]
    split_ifs with h1 h2 h3 h4 h5
    · omega
    · omega
    · omega
    · rfl
    · rfl
    · have hq := min_le_left (start + 0) (raid10MaxWritten r)
      omega
  · intro r start h0 hn hs hlt
    have hsn : 0 < r.stripeSz.toNat := by omega
    have hbps : r.stripeSz.toNat * (r.disks.length - 1) ≠ 0 := by
      have h1 : 0 < r.disks.length - 1 := by omega
      positivity
    simp only [RAID5Controller.Read]
    split_ifs with h1 h2 h3 h4 h5 h6
    · omega
    · omega
    · omega
    · rw [h4] at hlt
      norm_num at hlt
      omega
    · omega
    · rfl
    · exact absurd (min_le_left _ _) h6
  · intro r start h0 hn hs hnd hlt
    have hsn : 0 < r.stripeSz.toNat := by omega
    have hbps : r.stripeSz.toNat * r.dataShards ≠ 0 := by positivity
    simp only [RAID6Controller.Read]
    split_ifs with h1 h2 h3 h4 h5 h6
    · omega
    · omega
    · omega
    · rw [h4] at hlt
      norm_num at hlt
      omega
    · omega
    · rfl
    · exact absurd (min_le_left _ _) h6

/-- Witness for the amended claim C8 on one-chunk-deep controllers at
`start` strictly inside the written range. -/
theorem C8_zero_length_read_witness :
    (({ disks := [{ id := 0, data := [[65]] }, { id := 1, data := [[66]] }], stripeSz := 1 } :
        RAID0Controller).Read 1 0 = .ok [])
  ∧ (({ disks := [{ id := 0, data := [[65]] }, { id := 1, data := [[65]] }], stripeSz := 1 } :
        RAID1Controller).Read 0 0 = .ok [])
  ∧ (({ mirrors := [[{ id := 0, data := [[65]] }, { id := 1, data := [[65]] }],
                    [{ id := 2, data := [] }, { id := 3, data := [] }]], stripeSz := 1 } :
        RAID10Controller).Read 0 0 = .ok [])
  ∧ (({ disks := [{ id := 0, data := [[1]] }, { id := 1, data := [[2]] },
                  { id := 2, data := [[3]] }], stripeSz := 1 } :
        RAID5Controller).Read 1 0 = .ok [])
  ∧ (({ disks := [{ id := 0, data := [[1]] }, { id := 1, data := [[2]] },
                  { id := 2, data := [[3]] }, { id := 3, data := [[4]] }], stripeSz := 1,
        dataShards := 2, parityShards := 2 } :
        RAID6Controller).Read 1 0 = .ok []) := by
  have h := C8_zero_length_read_amended
  exact ⟨h.1 _ 1 (by norm_num) (by decide) (by norm_num) (by decide),
    h.2.1 _ 0 (by norm_num) (by decide) (by norm_num) (by decide),
    h.2.2.1 _ 0 (by norm_num) (by decide) (by norm_num) (by decide),
    h.2.2.2.1 _ 1 (by norm_num) (by decide) (by norm_num) (by decide),
    h.2.2.2.2 _ 1 (by norm_num) (by decide) (by norm_num) (by decide) (by decide)⟩

/-- Claim C4 (confirmed): on a fresh 4-member, stripe-size-4 RAID6
controller, after writing any 45-byte string at offset 0, clearing any
two distinct members and then calling `Read(0, 45)` returns the original
45 bytes unchanged: each of the six clear patterns (both data members,
one data member and one parity member, or both parity members) is
recovered by the two-parity reconstruction. -/
theorem C4_raid6_two_clear_recovery (data : List Nat) (hlen : data.length = 45)
    (hb : ∀ b ∈ data, b < 256) (i j : Int)
    (hi : 0 ≤ i) (hj : 0 ≤ j) (hne : i ≠ j) (hi4 : i < 4) (hj4 : j < 4) :
    (do
      let r0 ← NewRAID6Controller 4 4
      let r1 ← r0.Write data 0
      let r2 ← r1.ClearDisk i
      let r3 ← r2.ClearDisk j
      r3.Read 0 45 : Except Err (List Nat)) = .ok data := by
  have hC0 : NewRAID6Controller 4 4
      = .ok { disks := [⟨0, []⟩, ⟨1, []⟩, ⟨2, []⟩, ⟨3, []⟩], stripeSz := 4,
              dataShards := 2, parityShards := 2 } := rfl
  have hW := raid6Write45 data hlen
  rw [raid6Disks45_cleared] at hW
  rw [hC0, except_ok_bind, hW, except_ok_bind]
  interval_cases i <;> interval_cases j <;> try (exact absurd rfl hne)
  · rw [clear45_0, except_ok_bind, clear45_1, except_ok_bind]
    exact read45_01 data hlen hb
  · rw [clear45_0, except_ok_bind, clear45_2, except_ok_bind]
    exact read45_02 data hlen
  · rw [clear45_0, except_ok_bind, clear45_3, except_ok_bind]
    exact read45_03 data hlen
  · rw [clear45_1, except_ok_bind, clear45_0, except_ok_bind]
    exact read45_01 data hlen hb
  · rw [clear45_1, except_ok_bind, clear45_2, except_ok_bind]
    exact read45_12 data hlen hb
  · rw [clear45_1, except_ok_bind, clear45_3, except_ok_bind]
    exact read45_13 data hlen
  · rw [clear45_2, except_ok_bind, clear45_0, except_ok_bind]
    exact read45_02 data hlen
  · rw [clear45_2, except_ok_bind, clear45_1, except_ok_bind]
    exact read45_12 data hlen hb
  · rw [clear45_2, except_ok_bind, clear45_3, except_ok_bind]
    exact read45_23 data hlen
  · rw [clear45_3, except_ok_bind, clear45_0, except_ok_bind]
    exact read45_03 data hlen
  · rw [clear45_3, except_ok_bind, clear45_1, except_ok_bind]
    exact read45_13 data hlen
  · rw [clear45_3, except_ok_bind, clear45_2, except_ok_bind]
    exact read45_23 data hlen

/-- Witness for claim C4 at the 45 bytes 65..109, clearing members 0 and 3. -/
theorem C4_raid6_two_clear_recovery_witness :
    ((List.range 45).map (fun t => 65 + t)).length = 45
  ∧ (∀ b ∈ (List.range 45).map (fun t => 65 + t), b < 256)
  ∧ (0 : Int) ≤ 0 ∧ (0 : Int) ≤ 3 ∧ (0 : Int) ≠ 3 ∧ (0 : Int) < 4 ∧ (3 : Int) < 4
  ∧ (do
      let r0 ← NewRAID6Controller 4 4
      let r1 ← r0.Write ((List.range 45).map (fun t => 65 + t)) 0
      let r2 ← r1.ClearDisk 0
      let r3 ← r2.ClearDisk 3
      r3.Read 0 45 : Except Err (List Nat))
      = .ok ((List.range 45).map (fun t => 65 + t)) :=
  ⟨by decide, by decide, by decide, by decide, by decide, by decide, by decide,
   C4_raid6_two_clear_recovery ((List.range 45).map (fun t => 65 + t)) (by decide)
     (by decide) 0 3 (by decide) (by decide) (by decide) (by decide) (by decide)⟩

/-- Claim C5 (amended): reading the written range after clearing two
members on RAID5 fails, but with RAID5's own multiple-disk-failures read
error (raised by the per-stripe failed-member count before any
reconstruction), not `TooManyMissingShards`; clearing three members on
RAID6 fails with `TooManyMissingShards` from the shard-reconstruction
utility.  Stated for a one-full-stripe RAID5(3 members, stripe 1) write of
any two bytes and the 45-byte RAID6(4 members, stripe 4) write, over every
choice of distinct cleared members. -/
theorem C5_failure_threshold_amended :
    (∀ data : List Nat, data.length = 2 →
      ∀ i j : Int, 0 ≤ i → 0 ≤ j → i ≠ j → i < 3 → j < 3 →
      (do
        let r0 ← NewRAID5Controller 3 1
        let r1 ← r0.Write data 0
        let r2 ← r1.ClearDisk i
        let r3 ← r2.ClearDisk j
        r3.Read 0 2 : Except Err (List Nat)) = .error .multipleDiskFailures)
  ∧ (∀ data : List Nat, data.length = 45 →
      ∀ i j k : Int, 0 ≤ i → 0 ≤ j → 0 ≤ k → i ≠ j → i ≠ k → j ≠ k →
        i < 4 → j < 4 → k < 4 →
      (do
        let r0 ← NewRAID6Controller 4 4
        let r1 ← r0.Write data 0
        let r2 ← r1.ClearDisk i
        let r3 ← r2.ClearDisk j
        let r4 ← r3.ClearDisk k
        r4.Read 0 45 : Except Err (List Nat)) = .error .tooManyMissingShards) := by
  constructor
  · intro data hlen i j hi hj hne hi3 hj3
    match data, hlen with
    | [a, b], _ =>
      rw [show NewRAID5Controller 3 1
          = .ok ⟨[⟨0, []⟩, ⟨1, []⟩, ⟨2, []⟩], 1⟩ from rfl, except_ok_bind,
        raid5Write2 a b, except_ok_bind]
      interval_cases i <;> interval_cases j <;>
        first
        | exact absurd rfl hne
        | (repeat first
            | rw [raid5Clear3_0, except_ok_bind]
            | rw [raid5Clear3_1, except_ok_bind]
            | rw [raid5Clear3_2, except_ok_bind]
           exact raid5Read2_err _ _ _ rfl rfl)
  · intro data hlen i j k hi hj hk hij hik hjk hi4 hj4 hk4
    have hC0 : NewRAID6Controller 4 4
        = .ok { disks := [⟨0, []⟩, ⟨1, []⟩, ⟨2, []⟩, ⟨3, []⟩], stripeSz := 4,
                dataShards := 2, parityShards := 2 } := rfl
    have hW := raid6Write45 data hlen
    rw [raid6Disks45_cleared] at hW
    rw [hC0, except_ok_bind, hW, except_ok_bind]
    interval_cases i <;> interval_cases j <;> interval_cases k <;>
      first
      | omega
      | (repeat first
          | rw [clear45_0, except_ok_bind]
          | rw [clear45_1, except_ok_bind]
          | rw [clear45_2, except_ok_bind]
          | rw [clear45_3, except_ok_bind]
         exact raid6Read45_threeClear data _ _ _ _ (by simp) (by decide))

/-- Claim C5, counterexample: on RAID5 the two-member-failure read error
is not the `TooManyMissingShards` error the claim names — RAID5's Read
reports its own multiple-disk-failures error and never consults the
shard-reconstruction utility. -/
theorem C5_raid5_error_counterexample :
    (do
      let r ← NewRAID5Controller 3 1
      let r ← r.Write [65, 66] 0
      let r ← r.ClearDisk 0
      let r ← r.ClearDisk 1
      r.Read 0 2 : Except Err (List Nat)) = .error .multipleDiskFailures
  ∧ Err.multipleDiskFailures ≠ Err.tooManyMissingShards := ⟨rfl, by decide⟩

/-- Witness for the amended claim C5: RAID5 with members 0 and 1 cleared
after writing two bytes, RAID6 with members 0, 1 and 2 cleared after a
45-byte write. -/
theorem C5_failure_threshold_witness :
    ((65 : Nat) :: [66]).length = 2
  ∧ ((List.range 45).map (fun t => 65 + t)).length = 45
  ∧ (do
      let r0 ← NewRAID5Controller 3 1
      let r1 ← r0.Write [65, 66] 0
      let r2 ← r1.ClearDisk 0
      let r3 ← r2.ClearDisk 1
      r3.Read 0 2 : Except Err (List Nat)) = .error .multipleDiskFailures
  ∧ (do
      let r0 ← NewRAID6Controller 4 4
      let r1 ← r0.Write ((List.range 45).map (fun t => 65 + t)) 0
      let r2 ← r1.ClearDisk 0
      let r3 ← r2.ClearDisk 1
      let r4 ← r3.ClearDisk 2
      r4.Read 0 45 : Except Err (List Nat)) = .error .tooManyMissingShards :=
  ⟨by decide, by decide,
   C5_failure_threshold_amended.1 [65, 66] (by decide) 0 1 (by decide) (by decide)
     (by decide) (by decide) (by decide),
   C5_failure_threshold_amended.2 ((List.range 45).map (fun t => 65 + t)) (by decide)
     0 1 2 (by decide) (by decide) (by decide) (by decide) (by decide) (by decide)
     (by decide) (by decide) (by decide)⟩

/-- Claim C9 (amended): on a 2-member stripe-size-1 RAID0 array holding
four bytes, after clearing either member every read range that touches a
stripe stored on the cleared member fails with the chunk-unavailable
error — including ranges that begin on a healthy stripe — while
single-byte reads of stripes on the healthy member return exactly that
byte.  The failure requires the range start to lie below the post-clear
maximum written offset; see the counterexample for the boundary. -/
theorem C9_raid0_zero_tolerance_amended (a b c d : Nat) :
    ((do
      let r1 ← (NewRAID0Controller 2 1).Write [a, b, c, d] 0
      let r2 ← r1.ClearDisk 0
      r2.Read 0 1 : Except Err (List Nat)) = .error .chunkUnavailable)
  ∧ ((do
      let r1 ← (NewRAID0Controller 2 1).Write [a, b, c, d] 0
      let r2 ← r1.ClearDisk 0
      r2.Read 0 4 : Except Err (List Nat)) = .error .chunkUnavailable)
  ∧ ((do
      let r1 ← (NewRAID0Controller 2 1).Write [a, b, c, d] 0
      let r2 ← r1.ClearDisk 0
      r2.Read 1 2 : Except Err (List Nat)) = .error .chunkUnavailable)
  ∧ ((do
      let r1 ← (NewRAID0Controller 2 1).Write [a, b, c, d] 0
      let r2 ← r1.ClearDisk 0
      r2.Read 1 1 : Except Err (List Nat)) = .ok [b])
  ∧ ((do
      let r1 ← (NewRAID0Controller 2 1).Write [a, b, c, d] 0
      let r2 ← r1.ClearDisk 0
      r2.Read 3 1 : Except Err (List Nat)) = .ok [d])
  ∧ ((do
      let r1 ← (NewRAID0Controller 2 1).Write [a, b, c, d] 0
      let r2 ← r1.ClearDisk 1
      r2.Read 1 1 : Except Err (List Nat)) = .error .chunkUnavailable)
  ∧ ((do
      let r1 ← (NewRAID0Controller 2 1).Write [a, b, c, d] 0
      let r2 ← r1.ClearDisk 1
      r2.Read 0 1 : Except Err (List Nat)) = .ok [a])
  ∧ ((do
      let r1 ← (NewRAID0Controller 2 1).Write [a, b, c, d] 0
      let r2 ← r1.ClearDisk 1
      r2.Read 2 1 : Except Err (List Nat)) = .ok [c]) := by
  have hctor : NewRAID0Controller 2 1 = ⟨[⟨0, []⟩, ⟨1, []⟩], 1⟩ := rfl
  refine ⟨?_, ?_, ?_, ?_, ?_, ?_, ?_, ?_⟩ <;>
    rw [hctor, raid0Write4, except_ok_bind]
  · rw [raid0Clear2_0, except_ok_bind]; exact raid0ReadC0_err01 b d
  · rw [raid0Clear2_0, except_ok_bind]; exact raid0ReadC0_err04 b d
  · rw [raid0Clear2_0, except_ok_bind]; exact raid0ReadC0_err12 b d
  · rw [raid0Clear2_0, except_ok_bind]; exact raid0ReadC0_ok11 b d
  · rw [raid0Clear2_0, except_ok_bind]; exact raid0ReadC0_ok31 b d
  · rw [raid0Clear2_1, except_ok_bind]; exact raid0ReadC1_err11 a c
  · rw [raid0Clear2_1, except_ok_bind]; exact raid0ReadC1_ok01 a c
  · rw [raid0Clear2_1, except_ok_bind]; exact raid0ReadC1_ok21 a c

/-- Claim C9, counterexample: the failure direction does not hold when
clearing empties the deepest member.  With one byte written, clearing
member 0 shrinks RAID0's maximum-written bound to 0, and a read of the
byte's own range returns an empty success instead of the
chunk-unavailable error the claim requires. -/
theorem C9_raid0_cleared_range_counterexample :
    ((do
      let r1 ← (NewRAID0Controller 2 1).Write [65] 0
      let r2 ← r1.ClearDisk 0
      r2.Read 0 1 : Except Err (List Nat)) = .ok [])
  ∧ ∀ e : Err, (do
      let r1 ← (NewRAID0Controller 2 1).Write [65] 0
      let r2 ← r1.ClearDisk 0
      r2.Read 0 1 : Except Err (List Nat)) ≠ .error e :=
  ⟨rfl, fun e h => Except.noConfusion h⟩

/-- Witness for the amended claim C9 at the bytes 65..68. -/
theorem C9_raid0_zero_tolerance_witness :
    ((do
      let r1 ← (NewRAID0Controller 2 1).Write [65, 66, 67, 68] 0
      let r2 ← r1.ClearDisk 0
      r2.Read 0 1 : Except Err (List Nat)) = .error .chunkUnavailable)
  ∧ ((do
      let r1 ← (NewRAID0Controller 2 1).Write [65, 66, 67, 68] 0
      let r2 ← r1.ClearDisk 0
      r2.Read 1 1 : Except Err (List Nat)) = .ok [66]) :=
  ⟨(C9_raid0_zero_tolerance_amended 65 66 67 68).1,
   (C9_raid0_zero_tolerance_amended 65 66 67 68).2.2.2.1⟩

end RaidSim
